import Mathlib

/-!
# Dimension marshal and displacement calculator

A shallow embedding of `src/state/dimension-marshal/create-dimension-marshal.js`
and `src/state/get-displacement.js`.

The marshal is a closure over one mutable variable `state` and the publication
sink `callbacks`.  Every function of the closure becomes a function from the
current `State` and the current `Host` (the timer and animation-frame queues of
the JavaScript host) to a `Run`: the state and host it leaves behind, the
ordered list of outward calls it made, and how it completed (normally, or with
an uncaught `TypeError`).  Console output is not part of the model.

Registries are JavaScript objects used as dictionaries.  They are embedded as
association lists of own properties, listed in the order `Object.keys`
enumerates them: array-index keys first, in ascending order, then the other
keys in the order they were created.  A read `map[key]` that finds no own
property finds the members every object inherits from `Object.prototype`.

The source file does not parse as typed: line 368 reads
`if (state.isCollecting);`, so the braces of `onStateChange` close at line 372
and the `IDLE` block that follows is left outside every function.  Each
function is embedded with the braces as typed.
-/

namespace DimensionMarshal

/-! ## Data model -/

abbrev DraggableId := String
abbrev DroppableId := String
abbrev TypeId := String

/-- Modelled from the spec: the type declarations of `src/types` are not among
the sources.  An item descriptor carries its identifier and the identifier of
its owning container; it has no `type` property (`collect` tells containers
from items by the presence of `type`). -/
structure DraggableDescriptor where
  id : DraggableId
  droppableId : DroppableId
  deriving DecidableEq, Repr

/-- Modelled from the spec: the type declarations of `src/types` are not among
the sources.  A container descriptor carries its identifier and its grouping
type. -/
structure DroppableDescriptor where
  id : DroppableId
  type : TypeId
  deriving DecidableEq, Repr

/-- Modelled from the spec: the type declarations of `src/types` are not among
the sources.  An item dimension: the descriptor it was measured for and its
geometry (kept abstract as a number).  Item dimensions carry the `placeholder`
property. -/
structure DraggableDimension where
  descriptor : DraggableDescriptor
  geometry : Nat
  deriving DecidableEq, Repr

/-- Modelled from the spec: the type declarations of `src/types` are not among
the sources.  A container dimension: the descriptor it was measured for and its
geometry (kept abstract as a number).  It has no `placeholder` property. -/
structure DroppableDimension where
  descriptor : DroppableDescriptor
  geometry : Nat
  deriving DecidableEq, Repr

/-- The runtime values of `UnknownDimensionType`: what a measurement callback
returned. -/
inductive UnknownDimensionType where
  | draggable (dimension : DraggableDimension)
  | droppable (dimension : DroppableDimension)
  deriving DecidableEq, Repr

/-- The truthiness of `dimension.placeholder`. -/
def UnknownDimensionType.placeholder : UnknownDimensionType → Bool
  | .draggable _ => true
  | .droppable _ => false

/-- `dimension.descriptor.id`. -/
def UnknownDimensionType.descriptorId : UnknownDimensionType → String
  | .draggable d => d.descriptor.id
  | .droppable d => d.descriptor.id

/-- An item entry `{ descriptor, getDimension }`.  The measurement callback is
represented by the dimension it returns when it is called; each call is
recorded as an `Effect`. -/
structure DraggableEntry where
  descriptor : DraggableDescriptor
  getDimension : DraggableDimension
  deriving DecidableEq, Repr

/-- The capabilities of a container: `getDimension` is represented by the
dimension it returns; `watchScroll` and `unwatchScroll` return nothing and show
only as an `Effect`. -/
structure DroppableCallbacks where
  getDimension : DroppableDimension
  deriving DecidableEq, Repr

/-- A container entry `{ descriptor, callbacks }`. -/
structure DroppableEntry where
  descriptor : DroppableDescriptor
  callbacks : DroppableCallbacks
  deriving DecidableEq, Repr

abbrev DraggableEntryMap := List (DraggableId × DraggableEntry)
abbrev DroppableEntryMap := List (DroppableId × DroppableEntry)

/-- The own property of `map` under `key`, `none` when it has none.  This is
what a read `map[key]` gives where the source reads a member of the result
right away (`map[key].descriptor`, `map[key].callbacks.getDimension()`,
`map[key].getDimension()`): without an own property the result is `undefined`
or an inherited member that has none of these members, and the read, or the
read that follows it in the same statement, throws a `TypeError`. -/
def getEntry {α : Type} : List (String × α) → String → Option α
  | [], _ => none
  | (k, v) :: rest, key => if k = key then some v else getEntry rest key

/-- The names of the members a plain object inherits from `Object.prototype`;
each of them reads as a truthy value that is no registry entry. -/
def objectPrototypeKeys : List String :=
  ["constructor", "hasOwnProperty", "isPrototypeOf", "propertyIsEnumerable",
    "toLocaleString", "toString", "valueOf", "__proto__", "__defineGetter__",
    "__defineSetter__", "__lookupGetter__", "__lookupSetter__"]

/-- What a read `map[key]` of a registry gives. -/
inductive Property (α : Type) where
  /-- No own property and no inherited member: `undefined`, falsy. -/
  | undefined
  /-- The own property: a registry entry, truthy. -/
  | entry (value : α)
  /-- A member inherited from `Object.prototype`: truthy, and without the
  members of an entry. -/
  | inherited
  deriving DecidableEq, Repr

/-- The read `map[key]` on a plain object. -/
def readProperty {α : Type} (map : List (String × α)) (key : String) : Property α :=
  match getEntry map key with
  | some value => .entry value
  | none => if key ∈ objectPrototypeKeys then .inherited else .undefined

/-- The value of a decimal digit. -/
def digitValue (c : Char) : Option Nat :=
  if 48 ≤ c.toNat ∧ c.toNat ≤ 57 then some (c.toNat - 48) else none

/-- The number written by a list of decimal digits, read after `acc`. -/
def digitsValue : List Char → Nat → Option Nat
  | [], acc => some acc
  | c :: rest, acc =>
    match digitValue c with
    | none => none
    | some d => digitsValue rest (acc * 10 + d)

/-- The array index a property key stands for: the key is the decimal writing,
without a leading zero, of a number below `2 ^ 32 - 1`. -/
def arrayIndex (key : String) : Option Nat :=
  match key.toList with
  | [] => none
  | c :: rest =>
    if c = '0' ∧ rest ≠ [] then none
    else
      match digitsValue (c :: rest) 0 with
      | none => none
      | some n => if n < 4294967295 then some n else none

/-- Whether a new key is enumerated before an existing key: an array index
comes before a larger array index and before every key that is none. -/
def enumeratedBefore (key other : String) : Bool :=
  match arrayIndex key, arrayIndex other with
  | some i, some j => decide (i < j)
  | some _, none => true
  | none, _ => false

/-- A new own property, at the place `Object.keys` will list it. -/
def insertEntry {α : Type} : List (String × α) → String → α → List (String × α)
  | [], key, value => [(key, value)]
  | (k, v) :: rest, key, value =>
    if enumeratedBefore key k then (key, value) :: (k, v) :: rest
    else (k, v) :: insertEntry rest key value

/-- The object `{ ...map, [key]: value }`: a present key keeps its place and
takes the new value, a new key is created. -/
def setEntry {α : Type} (map : List (String × α)) (key : String) (value : α) :
    List (String × α) :=
  match getEntry map key with
  | some _ => map.map (fun p => if p.1 = key then (p.1, value) else p)
  | none => insertEntry map key value

/-- The object left by `delete map[key]` on a copy of `map`. -/
def deleteEntry {α : Type} (map : List (String × α)) (key : String) : List (String × α) :=
  map.filter (fun p => decide (p.1 ≠ key))

/-- `Object.keys(map)`. -/
def objectKeys {α : Type} (map : List (String × α)) : List String :=
  map.map Prod.fst

/-- The property key a value read as `x.id` turns into when it is used as
`map[x.id]`: `undefined` becomes the string `"undefined"`. -/
def toPropertyKey : Option String → String
  | some k => k
  | none => "undefined"

structure Timers where
  liftTimeoutId : Option Nat
  collectionFrameId : Option Nat
  deriving DecidableEq, Repr

def noTimers : Timers :=
  { liftTimeoutId := none, collectionFrameId := none }

/-- The closed-over `state` of the marshal. -/
structure State where
  droppables : DroppableEntryMap
  draggables : DraggableEntryMap
  isCollecting : Bool
  timers : Timers
  deriving DecidableEq, Repr

/-- The state a marshal is created with. -/
def initialState : State :=
  { droppables := [], draggables := [], isCollecting := false, timers := noTimers }

/-- The read `state.collection`.  `State` has no such property and no state
object the marshal builds has one, so the read gives `undefined`. -/
def State.collection (_state : State) : Option Unit := none

/-- The read `state.dragging`.  `State` has no such property and no state
object the marshal builds has one, so the read gives `undefined`. -/
def State.dragging (_state : State) : Option Unit := none

/-- The truthiness of a timer handle: `null` and `0` are falsy. -/
def handleTruthy : Option Nat → Bool
  | some n => decide (n ≠ 0)
  | none => false

/-- The runtime values found in `toBeCollected` (`UnknownDescriptorType[]`):
descriptors, and the bare property keys `Object.keys` returns. -/
inductive UnknownDescriptorType where
  | key (k : String)
  | draggable (descriptor : DraggableDescriptor)
  | droppable (descriptor : DroppableDescriptor)
  deriving DecidableEq, Repr

/-- The read `d.id`: a string has no `id` property. -/
def UnknownDescriptorType.id : UnknownDescriptorType → Option String
  | .key _ => none
  | .draggable d => some d.id
  | .droppable d => some d.id

/-- The truthiness of `descriptor.type`: only a container descriptor has the
property, and the empty string is falsy. -/
def UnknownDescriptorType.typeTruthy : UnknownDescriptorType → Bool
  | .key _ => false
  | .draggable _ => false
  | .droppable d => decide (d.type ≠ "")

/-! ## Host and effects -/

/-- The callbacks the marshal hands to the host's schedulers. -/
inductive Task where
  /-- The timeout callback `() => collect(toBeCollected)`. -/
  | collect (toBeCollected : List UnknownDescriptorType)
  /-- The first animation-frame callback of `collect` (Phase 1). -/
  | measure (toBeCollected : List UnknownDescriptorType)
  /-- The second animation-frame callback of `collect` (Phase 2). -/
  | publish (toBePublishedBuffer : List UnknownDimensionType)
  deriving DecidableEq, Repr

/-- The scheduling state of the JavaScript host: the handles `setTimeout` and
`requestAnimationFrame` return next, and the callbacks still pending. -/
structure Host where
  nextTimeoutId : Nat
  nextFrameId : Nat
  timeouts : List (Nat × Task)
  frames : List (Nat × Task)
  deriving DecidableEq, Repr

def initialHost : Host :=
  { nextTimeoutId := 1, nextFrameId := 1, timeouts := [], frames := [] }

/-- An outward call made by the marshal. -/
inductive Effect where
  /-- A call `entry.getDimension()` of an item entry. -/
  | getDraggableDimension (entry : DraggableEntry)
  /-- A call `entry.callbacks.getDimension()` of a container entry. -/
  | getDroppableDimension (entry : DroppableEntry)
  | publishDraggables (dimensions : List DraggableDimension)
  | publishDroppables (dimensions : List DroppableDimension)
  /-- A call `entry.callbacks.watchScroll(callbacks.updateDroppableScroll)`. -/
  | watchScroll (entry : DroppableEntry)
  | unwatchScroll (entry : DroppableEntry)
  /-- A call `callbacks.cancel()`. -/
  | cancel
  | setTimeout (handle : Nat) (task : Task)
  | clearTimeout (handle : Nat)
  | requestAnimationFrame (handle : Nat) (task : Task)
  | cancelAnimationFrame (handle : Nat)
  deriving DecidableEq, Repr

inductive Completion where
  | normal
  | typeError
  deriving DecidableEq, Repr

/-- What one call into the marshal leaves behind. -/
structure Run where
  state : State
  host : Host
  effects : List Effect
  completion : Completion
  deriving DecidableEq, Repr

/-- `setTimeout(task)`: the handle returned and the host afterwards. -/
def Host.setTimeout (host : Host) (task : Task) : Nat × Host :=
  (host.nextTimeoutId,
    { host with
      nextTimeoutId := host.nextTimeoutId + 1
      timeouts := host.timeouts ++ [(host.nextTimeoutId, task)] })

/-- `requestAnimationFrame(task)`: the handle returned and the host afterwards. -/
def Host.requestAnimationFrame (host : Host) (task : Task) : Nat × Host :=
  (host.nextFrameId,
    { host with
      nextFrameId := host.nextFrameId + 1
      frames := host.frames ++ [(host.nextFrameId, task)] })

/-- `clearTimeout(handle)`: a handle that is not pending is ignored. -/
def Host.clearTimeout (host : Host) (handle : Nat) : Host :=
  { host with timeouts := host.timeouts.filter (fun p => decide (p.1 ≠ handle)) }

/-- `cancelAnimationFrame(handle)`: a handle that is not pending is ignored. -/
def Host.cancelAnimationFrame (host : Host) (handle : Nat) : Host :=
  { host with frames := host.frames.filter (fun p => decide (p.1 ≠ handle)) }

/-! ## Registration -/

/-- `registerDraggable(descriptor, getDimension)`. -/
def registerDraggable (state : State) (host : Host)
    (descriptor : DraggableDescriptor) (getDimension : DraggableDimension) : Run :=
  let id := descriptor.id
  match readProperty state.draggables id with
  | .entry _ => { state := state, host := host, effects := [], completion := .normal }
  | .inherited => { state := state, host := host, effects := [], completion := .normal }
  | .undefined =>
    let entry : DraggableEntry := { descriptor := descriptor, getDimension := getDimension }
    let draggables := setEntry state.draggables id entry
    let state1 : State := { state with draggables := draggables }
    if (State.collection state1).isNone then
      { state := state1, host := host, effects := [], completion := .normal }
    else
      let dimension := entry.getDimension
      { state := state1, host := host,
        effects := [.getDraggableDimension entry, .publishDraggables [dimension]],
        completion := .normal }

/-- `registerDroppable(descriptor, droppableCallbacks)`. -/
def registerDroppable (state : State) (host : Host)
    (descriptor : DroppableDescriptor) (droppableCallbacks : DroppableCallbacks) : Run :=
  let id := descriptor.id
  match readProperty state.droppables id with
  | .entry _ => { state := state, host := host, effects := [], completion := .normal }
  | .inherited => { state := state, host := host, effects := [], completion := .normal }
  | .undefined =>
    let entry : DroppableEntry := { descriptor := descriptor, callbacks := droppableCallbacks }
    let droppables := setEntry state.droppables id entry
    let state1 : State := { state with droppables := droppables }
    if (State.collection state1).isNone then
      { state := state1, host := host, effects := [], completion := .normal }
    else
      let dimension := entry.callbacks.getDimension
      { state := state1, host := host,
        effects := [.getDroppableDimension entry, .publishDroppables [dimension]],
        completion := .normal }

/-- `unregisterDraggable(id)`.  For an inherited name the guard is passed and
`delete` finds no own property to remove. -/
def unregisterDraggable (state : State) (host : Host) (id : DraggableId) : Run :=
  match readProperty state.draggables id with
  | .undefined => { state := state, host := host, effects := [], completion := .normal }
  | _ =>
    let newMap := deleteEntry state.draggables id
    { state := { state with draggables := newMap }, host := host, effects := [],
      completion := .normal }

/-- `unregisterDroppable(id)`.  For an inherited name the guard is passed and
`delete` finds no own property to remove. -/
def unregisterDroppable (state : State) (host : Host) (id : DroppableId) : Run :=
  match readProperty state.droppables id with
  | .undefined => { state := state, host := host, effects := [], completion := .normal }
  | _ =>
    let newMap := deleteEntry state.droppables id
    { state := { state with droppables := newMap }, host := host, effects := [],
      completion := .normal }

/-! ## Collection -/

/-- The method `array.filter(callback)` for a callback that can throw: `none`
is the uncaught `TypeError`, raised at the first element whose callback
throws. -/
def filterThrowing {α : Type} (callback : α → Option Bool) : List α → Option (List α)
  | [] => some []
  | a :: rest =>
    match callback a with
    | none => none
    | some keep =>
      match filterThrowing callback rest with
      | none => none
      | some kept => some (if keep then a :: kept else kept)

/-- The method `array.map(callback)` for a callback that can throw: `none` is
the uncaught `TypeError`. -/
def mapThrowing {α β : Type} (callback : α → Option β) : List α → Option (List β)
  | [] => some []
  | a :: rest =>
    match callback a with
    | none => none
    | some b =>
      match mapThrowing callback rest with
      | none => none
      | some bs => some (b :: bs)

/-- The value of `draggablesToBeCollected` in `startInitialCollection`
(`none`: the expression throws). -/
def draggablesToBeCollected (draggables : DraggableEntryMap) (droppables : DroppableEntryMap)
    (descriptor : DraggableDescriptor) (home : DroppableDimension) :
    Option (List DraggableDescriptor) :=
  match mapThrowing (fun id => (getEntry draggables id).map (fun e => e.descriptor))
      (objectKeys draggables) with
  | none => none
  | some descriptors =>
    filterThrowing
      (fun d => (getEntry droppables d.droppableId).map
        (fun e => decide (e.descriptor.type = home.descriptor.type)))
      (descriptors.filter (fun d => decide (d.id ≠ descriptor.id)))

/-- The value of `droppablesToBeCollected` in `startInitialCollection`
(`none`: the expression throws).  The filters run over the strings
`Object.keys(droppables)` returns, so `d.id` is `undefined` in both. -/
def droppablesToBeCollected (droppables : DroppableEntryMap) (home : DroppableDimension) :
    Option (List UnknownDescriptorType) :=
  filterThrowing
    (fun d => (getEntry droppables (toPropertyKey d.id)).map
      (fun e => decide (e.descriptor.type = home.descriptor.type)))
    (((objectKeys droppables).map UnknownDescriptorType.key).filter
      (fun d => decide (d.id ≠ some home.descriptor.id)))

/-- The function `setFrameId(frameId)`, as a state update. -/
def setFrameId (state : State) (frameId : Option Nat) : State :=
  { state with timers := { collectionFrameId := frameId, liftTimeoutId := none } }

/-- The call `collect(toBeCollected)`: it requests the Phase 1 frame and
records its handle. -/
def collect (state : State) (host : Host) (toBeCollected : List UnknownDescriptorType) : Run :=
  let (collectFrameId, host1) := host.requestAnimationFrame (.measure toBeCollected)
  { state := setFrameId state (some collectFrameId), host := host1,
    effects := [.requestAnimationFrame collectFrameId (.measure toBeCollected)],
    completion := .normal }

/-- The `toBeCollected.map(...)` of Phase 1: the measurement calls made, and
the buffer (`none` when a registry lookup gave `undefined` and the member read
on it threw). -/
def measureAll (state : State) :
    List UnknownDescriptorType → List Effect × Option (List UnknownDimensionType)
  | [] => ([], some [])
  | descriptor :: rest =>
    if descriptor.typeTruthy then
      match getEntry state.droppables (toPropertyKey descriptor.id) with
      | none => ([], none)
      | some entry =>
        let (effects, buffer) := measureAll state rest
        (.getDroppableDimension entry :: effects,
          buffer.map (fun b => .droppable entry.callbacks.getDimension :: b))
    else
      match getEntry state.draggables (toPropertyKey descriptor.id) with
      | none => ([], none)
      | some entry =>
        let (effects, buffer) := measureAll state rest
        (.getDraggableDimension entry :: effects,
          buffer.map (fun b => .draggable entry.getDimension :: b))

/-- The first animation-frame callback of `collect`. -/
def collectMeasure (state : State) (host : Host)
    (toBeCollected : List UnknownDescriptorType) : Run :=
  match measureAll state toBeCollected with
  | (effects, none) =>
    { state := state, host := host, effects := effects, completion := .typeError }
  | (effects, some toBePublishedBuffer) =>
    let (publishFrameId, host1) := host.requestAnimationFrame (.publish toBePublishedBuffer)
    { state := setFrameId state (some publishFrameId), host := host1,
      effects := effects ++ [.requestAnimationFrame publishFrameId (.publish toBePublishedBuffer)],
      completion := .normal }

structure ToBePublished where
  draggables : List DraggableDimension
  droppables : List DroppableDimension
  deriving DecidableEq, Repr

/-- The reducer of Phase 2: a dimension with a `placeholder` goes to the end of
`draggables`, any other to the end of `droppables`. -/
def pushDimension (previous : ToBePublished) : UnknownDimensionType → ToBePublished
  | .draggable dimension => { previous with draggables := previous.draggables ++ [dimension] }
  | .droppable dimension => { previous with droppables := previous.droppables ++ [dimension] }

/-- The `toBePublished.droppables.forEach(...)` of Phase 2: the `watchScroll`
calls made, and whether a lookup of `state.droppables` gave `undefined`. -/
def watchAll (state : State) : List DroppableDimension → List Effect × Completion
  | [] => ([], .normal)
  | dimension :: rest =>
    match getEntry state.droppables dimension.descriptor.id with
    | none => ([], .typeError)
    | some entry =>
      let (effects, completion) := watchAll state rest
      (.watchScroll entry :: effects, completion)

/-- The second animation-frame callback of `collect`. -/
def collectPublish (state : State) (host : Host)
    (toBePublishedBuffer : List UnknownDimensionType) : Run :=
  let toBePublished : ToBePublished :=
    toBePublishedBuffer.foldl pushDimension { draggables := [], droppables := [] }
  let published : List Effect :=
    [.publishDroppables toBePublished.droppables, .publishDraggables toBePublished.draggables]
  match watchAll state toBePublished.droppables with
  | (effects, .typeError) =>
    { state := state, host := host, effects := published ++ effects, completion := .typeError }
  | (effects, .normal) =>
    { state := setFrameId state none, host := host, effects := published ++ effects,
      completion := .normal }

/-- The function `startInitialCollection(descriptor)`. -/
def startInitialCollection (state : State) (host : Host)
    (descriptor : DraggableDescriptor) : Run :=
  if (State.dragging state).isSome then
    { state := state, host := host, effects := [.cancel], completion := .normal }
  else
    let draggables := state.draggables
    let droppables := state.droppables
    match readProperty draggables descriptor.id with
    | .undefined =>
      { state := state, host := host, effects := [.cancel], completion := .normal }
    | .inherited =>
      -- line 262: `draggableEntry.descriptor` is `undefined`, reading `droppableId` throws
      { state := state, host := host, effects := [], completion := .typeError }
    | .entry draggableEntry =>
      match readProperty droppables draggableEntry.descriptor.droppableId with
      | .undefined =>
        { state := state, host := host, effects := [.cancel], completion := .normal }
      | .inherited =>
        -- line 273: `homeEntry.callbacks` is `undefined`, reading `getDimension` throws
        { state := state, host := host, effects := [], completion := .typeError }
      | .entry homeEntry =>
        let home := homeEntry.callbacks.getDimension
        let draggable := draggableEntry.getDimension
        let initial : List Effect :=
          [.getDroppableDimension homeEntry, .getDraggableDimension draggableEntry,
            .publishDroppables [home], .publishDraggables [draggable],
            .watchScroll homeEntry]
        match draggablesToBeCollected draggables droppables descriptor home with
        | none =>
          { state := state, host := host, effects := initial, completion := .typeError }
        | some draggablesToBeCollected =>
          match droppablesToBeCollected droppables home with
          | none =>
            { state := state, host := host, effects := initial, completion := .typeError }
          | some droppablesToBeCollected =>
            let toBeCollected : List UnknownDescriptorType :=
              droppablesToBeCollected ++
                draggablesToBeCollected.map UnknownDescriptorType.draggable
            let (liftTimeoutId, host1) := host.setTimeout (.collect toBeCollected)
            let timers : Timers :=
              { liftTimeoutId := some liftTimeoutId, collectionFrameId := none }
            { state := { state with timers := timers }, host := host1,
              effects := initial ++ [.setTimeout liftTimeoutId (.collect toBeCollected)],
              completion := .normal }

/-- The `forEach` of `stopCollecting` over the looked-up entries: the
`unwatchScroll` calls made, and whether an entry was `undefined`. -/
def unwatchAll : List (Option DroppableEntry) → List Effect × Completion
  | [] => ([], .normal)
  | none :: _ => ([], .typeError)
  | some entry :: rest =>
    let (effects, completion) := unwatchAll rest
    (.unwatchScroll entry :: effects, completion)

/-- The function `stopCollecting()`. -/
def stopCollecting (state : State) (host : Host) : Run :=
  if !state.isCollecting then
    { state := state, host := host, effects := [], completion := .normal }
  else
    match unwatchAll ((objectKeys state.droppables).map (fun id => getEntry state.droppables id)) with
    | (effects, .typeError) =>
      { state := state, host := host, effects := effects, completion := .typeError }
    | (effects, .normal) =>
      let (effects1, host1) :=
        match state.timers.liftTimeoutId with
        | some handle =>
          if handleTruthy (some handle) then
            (effects ++ [Effect.clearTimeout handle], host.clearTimeout handle)
          else (effects, host)
        | none => (effects, host)
      let (effects2, host2) :=
        match state.timers.collectionFrameId with
        | some handle =>
          if handleTruthy (some handle) then
            (effects1 ++ [Effect.cancelAnimationFrame handle], host1.cancelAnimationFrame handle)
          else (effects1, host1)
        | none => (effects1, host1)
      { state := { state with isCollecting := false, timers := noTimers }, host := host2,
        effects := effects2, completion := .normal }

/-- Modelled from the spec: the type declarations of `src/types` are not among
the sources.  The part `current.dimension` of the application state the marshal
reads: the descriptor requested for the drag, `none` when there is none. -/
structure DimensionState where
  request : Option DraggableDescriptor
  deriving DecidableEq, Repr

/-- Modelled from the spec: the type declarations of `src/types` are not among
the sources.  The application state handed to `onStateChange`: its phase, a
string, and its dimension part. -/
structure AppState where
  phase : String
  dimension : DimensionState
  deriving DecidableEq, Repr

/-- Sequencing of two statements: the second runs from where the first ended,
unless the first threw. -/
def Run.andThen (first : Run) (second : State → Host → Run) : Run :=
  match first.completion with
  | .typeError => first
  | .normal =>
    let next := second first.state first.host
    { next with effects := first.effects ++ next.effects }

/-- Lines 366 to 371 of `onStateChange`, with the braces as typed.  Line 368,
`if (state.isCollecting);`, is an `if` whose body is the empty statement, so
in the two drop phases `stopCollecting()` is called without a test; the brace
of line 370 closes the block of the phase test and the `return` of line 371
ends the function for every phase. -/
def onStateChangeDrop (state : State) (host : Host) (phase : String) : Run :=
  if phase = "DROP_ANIMATING" ∨ phase = "DROP_COMPLETE" then
    stopCollecting state host
  else { state := state, host := host, effects := [], completion := .normal }

/-- The function `onStateChange(current)`, lines 351 to 372: the brace of line
372 closes it.  The block for the phase `IDLE` (lines 374 to 379) comes after
that brace and is no part of the function. -/
def onStateChange (state : State) (host : Host) (current : AppState) : Run :=
  let phase := current.phase
  if phase = "COLLECTING_INITIAL_DIMENSIONS" then
    match current.dimension.request with
    | none => { state := state, host := host, effects := [.cancel], completion := .normal }
    | some descriptor =>
      (startInitialCollection state host descriptor).andThen
        (fun state1 host1 => onStateChangeDrop state1 host1 phase)
  else onStateChangeDrop state host phase

/-! ## Running scheduled callbacks -/

/-- The body of a scheduled callback. -/
def runTask (state : State) (host : Host) : Task → Run
  | .collect toBeCollected => collect state host toBeCollected
  | .measure toBeCollected => collectMeasure state host toBeCollected
  | .publish toBePublishedBuffer => collectPublish state host toBePublishedBuffer

/-- The pending callback registered under a handle. -/
def findTask : List (Nat × Task) → Nat → Option Task
  | [], _ => none
  | (h, task) :: rest, handle => if h = handle then some task else findTask rest handle

/-- The host fires the pending timeout `handle`: the callback leaves the queue
and runs.  Nothing happens for a handle that is not pending. -/
def fireTimeout (state : State) (host : Host) (handle : Nat) : Run :=
  match findTask host.timeouts handle with
  | none => { state := state, host := host, effects := [], completion := .normal }
  | some task => runTask state (host.clearTimeout handle) task

/-- The host fires the pending animation-frame callback `handle`. -/
def fireFrame (state : State) (host : Host) (handle : Nat) : Run :=
  match findTask host.frames handle with
  | none => { state := state, host := host, effects := [], completion := .normal }
  | some task => runTask state (host.cancelAnimationFrame handle) task

/-! ## Sequences of calls -/

/-- A call of the marshal's interface, or the host firing a pending callback. -/
inductive Call where
  | registerDraggable (descriptor : DraggableDescriptor) (getDimension : DraggableDimension)
  | registerDroppable (descriptor : DroppableDescriptor) (droppableCallbacks : DroppableCallbacks)
  | unregisterDraggable (id : DraggableId)
  | unregisterDroppable (id : DroppableId)
  | onStateChange (current : AppState)
  | fireTimeout (handle : Nat)
  | fireFrame (handle : Nat)
  deriving DecidableEq, Repr

/-- One call, from a given state and host. -/
def runCall (state : State) (host : Host) : Call → Run
  | .registerDraggable descriptor getDimension =>
    registerDraggable state host descriptor getDimension
  | .registerDroppable descriptor droppableCallbacks =>
    registerDroppable state host descriptor droppableCallbacks
  | .unregisterDraggable id => unregisterDraggable state host id
  | .unregisterDroppable id => unregisterDroppable state host id
  | .onStateChange current => onStateChange state host current
  | .fireTimeout handle => fireTimeout state host handle
  | .fireFrame handle => fireFrame state host handle

/-- Calls made one after the other, each from the state and host the previous
one left (an uncaught `TypeError` ends only the call that raised it).  The
effects are those of all calls, in order; the completion is `typeError` when
some call threw. -/
def runCalls (state : State) (host : Host) : List Call → Run
  | [] => { state := state, host := host, effects := [], completion := .normal }
  | call :: rest =>
    let first := runCall state host call
    let next := runCalls first.state first.host rest
    { next with
      effects := first.effects ++ next.effects
      completion := if first.completion = .typeError then .typeError else next.completion }

/-- A registration call. -/
inductive Registration where
  | draggable (descriptor : DraggableDescriptor) (getDimension : DraggableDimension)
  | droppable (descriptor : DroppableDescriptor) (droppableCallbacks : DroppableCallbacks)
  deriving DecidableEq, Repr

def Registration.toCall : Registration → Call
  | .draggable descriptor getDimension => .registerDraggable descriptor getDimension
  | .droppable descriptor droppableCallbacks => .registerDroppable descriptor droppableCallbacks

/-- The item entries a list of registrations asks for, keyed by identifier. -/
def draggableEntries : List Registration → DraggableEntryMap
  | [] => []
  | .draggable descriptor getDimension :: rest =>
    (descriptor.id, { descriptor := descriptor, getDimension := getDimension }) ::
      draggableEntries rest
  | .droppable _ _ :: rest => draggableEntries rest

/-- The container entries a list of registrations asks for, keyed by identifier. -/
def droppableEntries : List Registration → DroppableEntryMap
  | [] => []
  | .draggable _ _ :: rest => droppableEntries rest
  | .droppable descriptor droppableCallbacks :: rest =>
    (descriptor.id, { descriptor := descriptor, callbacks := droppableCallbacks }) ::
      droppableEntries rest

/-! ## Reading the effects of a collection cycle -/

/-- A measurement call: `getDimension` of an item entry or of a container
entry. -/
def Effect.isMeasurement : Effect → Bool
  | .getDraggableDimension _ => true
  | .getDroppableDimension _ => true
  | _ => false

/-- A write of the cycle: `publishDroppables`, `publishDraggables` or
`watchScroll`. -/
def Effect.isPublication : Effect → Bool
  | .publishDraggables _ => true
  | .publishDroppables _ => true
  | .watchScroll _ => true
  | _ => false

/-- The callback of the Phase 1 `map` on one candidate: the measurement call
it makes and the dimension it returns (`none` when the registry lookup gives
`undefined` and the callback throws). -/
def measureOne (state : State) (descriptor : UnknownDescriptorType) :
    Option (Effect × UnknownDimensionType) :=
  if descriptor.typeTruthy then
    (getEntry state.droppables (toPropertyKey descriptor.id)).map
      (fun entry => (.getDroppableDimension entry, .droppable entry.callbacks.getDimension))
  else
    (getEntry state.draggables (toPropertyKey descriptor.id)).map
      (fun entry => (.getDraggableDimension entry, .draggable entry.getDimension))

/-- Following the words of the specification: the measurement of a candidate is the
call of the measurement callback of its own registry entry, the item entry
under its identifier for an item, the container entry under its identifier (or
under the key itself) for a container; `none` when it has no entry. -/
def ownMeasurement (state : State) :
    UnknownDescriptorType → Option (Effect × UnknownDimensionType)
  | .key k =>
    (getEntry state.droppables k).map
      (fun entry => (.getDroppableDimension entry, .droppable entry.callbacks.getDimension))
  | .draggable descriptor =>
    (getEntry state.draggables descriptor.id).map
      (fun entry => (.getDraggableDimension entry, .draggable entry.getDimension))
  | .droppable descriptor =>
    (getEntry state.droppables descriptor.id).map
      (fun entry => (.getDroppableDimension entry, .droppable entry.callbacks.getDimension))

/-- The candidates whose kind the test `if (descriptor.type)` of Phase 1 tells:
item descriptors, and container descriptors with a non-empty type. -/
def UnknownDescriptorType.kindTold : UnknownDescriptorType → Bool
  | .key _ => false
  | .draggable _ => true
  | .droppable descriptor => decide (descriptor.type ≠ "")

/-- The buffered dimensions that carry a `placeholder`, in buffer order. -/
def draggableDimensions : List UnknownDimensionType → List DraggableDimension
  | [] => []
  | .draggable dimension :: rest => dimension :: draggableDimensions rest
  | .droppable _ :: rest => draggableDimensions rest

/-- The buffered dimensions that carry no `placeholder`, in buffer order. -/
def droppableDimensions : List UnknownDimensionType → List DroppableDimension
  | [] => []
  | .draggable _ :: rest => droppableDimensions rest
  | .droppable dimension :: rest => dimension :: droppableDimensions rest

/-! ## The scenario of the specification -/

namespace Scenario

def c1 : DroppableDescriptor := { id := "C1", type := "list" }
def c2 : DroppableDescriptor := { id := "C2", type := "list" }
def c3 : DroppableDescriptor := { id := "C3", type := "board" }
def a : DraggableDescriptor := { id := "A", droppableId := "C1" }
def b : DraggableDescriptor := { id := "B", droppableId := "C1" }
def d : DraggableDescriptor := { id := "D", droppableId := "C3" }

/-- The capabilities a container registers with: its measurement returns its
own descriptor with the given geometry. -/
def callbacksOf (descriptor : DroppableDescriptor) (geometry : Nat) : DroppableCallbacks :=
  { getDimension := { descriptor := descriptor, geometry := geometry } }

/-- The measurement an item registers with. -/
def dimensionOf (descriptor : DraggableDescriptor) (geometry : Nat) : DraggableDimension :=
  { descriptor := descriptor, geometry := geometry }

def entryC1 : DroppableEntry := { descriptor := c1, callbacks := callbacksOf c1 1 }
def entryC2 : DroppableEntry := { descriptor := c2, callbacks := callbacksOf c2 2 }
def entryC3 : DroppableEntry := { descriptor := c3, callbacks := callbacksOf c3 3 }
def entryA : DraggableEntry := { descriptor := a, getDimension := dimensionOf a 4 }
def entryB : DraggableEntry := { descriptor := b, getDimension := dimensionOf b 5 }
def entryD : DraggableEntry := { descriptor := d, getDimension := dimensionOf d 6 }

/-- The six registrations of the scenario. -/
def registrationList : List Registration :=
  [.droppable c1 (callbacksOf c1 1), .droppable c2 (callbacksOf c2 2),
    .droppable c3 (callbacksOf c3 3), .draggable a (dimensionOf a 4),
    .draggable b (dimensionOf b 5), .draggable d (dimensionOf d 6)]

/-- The six registrations of the scenario, as calls. -/
def registrations : List Call :=
  registrationList.map Registration.toCall

/-- The registry after the six registrations. -/
def registered : State :=
  { droppables := [("C1", entryC1), ("C2", entryC2), ("C3", entryC3)]
    draggables := [("A", entryA), ("B", entryB), ("D", entryD)]
    isCollecting := false
    timers := noTimers }

/-- The application state that asks for the collection for a descriptor. -/
def collectingFor (descriptor : DraggableDescriptor) : AppState :=
  { phase := "COLLECTING_INITIAL_DIMENSIONS", dimension := { request := some descriptor } }

/-- The initial publication for item A of container C1. -/
def initialEffects : List Effect :=
  [.getDroppableDimension entryC1, .getDraggableDimension entryA,
    .publishDroppables [entryC1.callbacks.getDimension],
    .publishDraggables [entryA.getDimension], .watchScroll entryC1]

/-- A container registered under the identifier `"undefined"`. -/
def cu : DroppableDescriptor := { id := "undefined", type := "list" }
def entryCu : DroppableEntry := { descriptor := cu, callbacks := callbacksOf cu 7 }

/-- The registry of the scenario with the container `"undefined"` added. -/
def registeredWithUndefined : State :=
  { registered with
    droppables := [("C1", entryC1), ("C2", entryC2), ("C3", entryC3), ("undefined", entryCu)] }

/-- An item whose owning container `"C9"` is not registered. -/
def e : DraggableDescriptor := { id := "E", droppableId := "C9" }
def entryE : DraggableEntry := { descriptor := e, getDimension := dimensionOf e 8 }

/-- The registry of the scenario with the item E added. -/
def registeredWithOrphan : State :=
  { registered with
    draggables := [("A", entryA), ("B", entryB), ("D", entryD), ("E", entryE)] }

/-- An item that is not registered. -/
def z : DraggableDescriptor := { id := "Z", droppableId := "C1" }

/-- The application state that asks for a collection without a descriptor. -/
def collectingForNothing : AppState :=
  { phase := "COLLECTING_INITIAL_DIMENSIONS", dimension := { request := none } }

/-- The registry of the scenario while a session is marked active, with a
deferred task recorded. -/
def collecting : State :=
  { registered with
    isCollecting := true
    timers := { liftTimeoutId := some 1, collectionFrameId := none } }

/-- A container and an item that are not in the registry of the scenario. -/
def c4 : DroppableDescriptor := { id := "C4", type := "list" }
def f : DraggableDescriptor := { id := "F", droppableId := "C1" }

/-- An application state in a given phase, with no requested descriptor. -/
def stateInPhase (phase : String) : AppState :=
  { phase := phase, dimension := { request := none } }

/-- The registry of the scenario after `unregisterDraggable("B")`. -/
def withoutB : State :=
  { registered with draggables := [("A", entryA), ("D", entryD)] }

/-- A container registered under the identifier `"undefined"`, of type
`"board"`. -/
def cuBoard : DroppableDescriptor := { id := "undefined", type := "board" }
def entryCuBoard : DroppableEntry := { descriptor := cuBoard, callbacks := callbacksOf cuBoard 13 }

/-- The registry of the scenario with the container `"undefined"` of type
`"board"` added.  On it `startInitialCollection` for item A completes and hands
over the single candidate B. -/
def registeredWithBoard : State :=
  { registered with
    droppables :=
      [("C1", entryC1), ("C2", entryC2), ("C3", entryC3), ("undefined", entryCuBoard)] }

/-- The candidates `startInitialCollection` hands over for item A on
`registeredWithBoard`: the descriptor of item B. -/
def candidates : List UnknownDescriptorType :=
  [.draggable b]

/-- The buffer Phase 1 measures for `candidates`. -/
def buffer : List UnknownDimensionType :=
  [.draggable entryB.getDimension]

/-- The registry of the scenario with a session marked active and both timer
handles recorded, each with its task pending in the host. -/
def collectingBoth : State :=
  { registered with
    isCollecting := true
    timers := { liftTimeoutId := some 1, collectionFrameId := some 2 } }

def hostBoth : Host :=
  { nextTimeoutId := 2, nextFrameId := 3
    timeouts := [(1, .collect candidates)]
    frames := [(2, .measure candidates)] }

/-- A descriptor whose identifier is the name of an inherited member; no item
is registered under it. -/
def itemToString : DraggableDescriptor := { id := "toString", droppableId := "C1" }

/-- A descriptor whose identifier is the name of an inherited member. -/
def itemConstructor : DraggableDescriptor := { id := "constructor", droppableId := "C1" }

/-- An item whose owning container identifier is the name of an inherited
member; no container is registered under it. -/
def g : DraggableDescriptor := { id := "G", droppableId := "constructor" }
def entryG : DraggableEntry := { descriptor := g, getDimension := dimensionOf g 12 }

/-- The registry of the scenario with the item G added. -/
def registeredWithG : State :=
  { registered with
    draggables := [("A", entryA), ("B", entryB), ("D", entryD), ("G", entryG)] }

end Scenario

end DimensionMarshal

namespace GetDisplacement

open DimensionMarshal

/-- Modelled from the spec: the type declarations of `src/types` are not among
the sources.  A displacement decision for one item. -/
structure Displacement where
  draggableId : DraggableId
  isVisible : Bool
  shouldAnimate : Bool
  deriving DecidableEq, Repr

/-- Modelled from the spec: the type declarations of `src/types` are not among
the sources.  The part `impact.movement` the calculator reads. -/
structure DragMovement where
  displaced : List Displacement
  deriving DecidableEq, Repr

/-- Modelled from the spec: the type declarations of `src/types` are not among
the sources.  The part of a drag impact the calculator reads. -/
structure DragImpact where
  movement : DragMovement
  deriving DecidableEq, Repr

/-- The argument object of the default export; the viewport rectangle is only
passed on, so its type is left open. -/
structure Args (ClientRect : Type) where
  draggable : DraggableDimension
  destination : DroppableDimension
  viewport : ClientRect
  previousImpact : DragImpact

/-- The argument object handed to `isDisplacedDraggableVisible`. -/
structure VisibilityArgs (ClientRect : Type) where
  displaced : DraggableDimension
  droppable : DroppableDimension
  viewport : ClientRect

/-- The default export of `get-displacement.js`.  Its two imported helpers are
not among the sources and are taken as parameters: the visibility test, and
`getDisplacementMap`, whose result is read as `map[id]` (`none` is
`undefined`). -/
def getDisplacement {ClientRect : Type}
    (isDisplacedDraggableVisible : VisibilityArgs ClientRect → Bool)
    (getDisplacementMap : List Displacement → DraggableId → Option Displacement)
    (args : Args ClientRect) : Displacement :=
  let id := args.draggable.descriptor.id
  let map := getDisplacementMap args.previousImpact.movement.displaced
  let isVisible := isDisplacedDraggableVisible
    { displaced := args.draggable, droppable := args.destination, viewport := args.viewport }
  let shouldAnimate : Bool :=
    if !isVisible then false
    else
      match map id with
      | none => true
      | some previous => previous.shouldAnimate
  { draggableId := id, isVisible := isVisible, shouldAnimate := shouldAnimate }

/-- A displacement map for the examples: the record of an identifier is the
last one the displaced list holds for it. -/
def lastRecord (displaced : List Displacement) (id : DraggableId) : Option Displacement :=
  displaced.reverse.find? (fun record => decide (record.draggableId = id))

/-- An argument object for the examples: item A over container C1, with the
given previous displaced list. -/
def argsFor (displaced : List Displacement) : Args Unit :=
  { draggable := Scenario.entryA.getDimension
    destination := Scenario.entryC1.callbacks.getDimension
    viewport := ()
    previousImpact := { movement := { displaced := displaced } } }

end GetDisplacement

/-! ## Registry lemmas -/

namespace DimensionMarshal

theorem getEntry_eq_none_of_not_mem {α : Type} (map : List (String × α)) (key : String)
    (h : key ∉ objectKeys map) : getEntry map key = none := by
  induction map with
  | nil => rfl
  | cons p rest ih =>
    obtain ⟨k, v⟩ := p
    simp only [objectKeys, List.map_cons, List.mem_cons, not_or] at h
    have hne : ¬ k = key := fun e => h.1 e.symm
    simp only [getEntry, hne, if_false]
    exact ih h.2

theorem mem_objectKeys_of_getEntry {α : Type} (map : List (String × α)) (key : String) (value : α)
    (h : getEntry map key = some value) : key ∈ objectKeys map := by
  by_contra hnot
  rw [getEntry_eq_none_of_not_mem map key hnot] at h
  exact Option.noConfusion h

theorem not_mem_objectKeys_of_getEntry_none {α : Type} (map : List (String × α))
    (key : String) (h : getEntry map key = none) : key ∉ objectKeys map := by
  induction map with
  | nil => simp [objectKeys]
  | cons p rest ih =>
    obtain ⟨k, v⟩ := p
    by_cases hk : k = key
    · simp [getEntry, hk] at h
    · simp only [getEntry, hk, if_false] at h
      simp only [objectKeys, List.map_cons, List.mem_cons, not_or]
      exact ⟨fun e => hk e.symm, ih h⟩

theorem readProperty_of_getEntry {α : Type} (map : List (String × α)) (key : String)
    (value : α) (h : getEntry map key = some value) :
    readProperty map key = .entry value := by
  simp only [readProperty, h]

theorem readProperty_undefined_of_fresh {α : Type} (map : List (String × α)) (key : String)
    (hOwn : key ∉ objectKeys map) (hInherited : key ∉ objectPrototypeKeys) :
    readProperty map key = .undefined := by
  simp only [readProperty, getEntry_eq_none_of_not_mem map key hOwn, hInherited, if_false]

theorem getEntry_of_readProperty_undefined {α : Type} (map : List (String × α))
    (key : String) (h : readProperty map key = .undefined) : getEntry map key = none := by
  unfold readProperty at h
  cases hg : getEntry map key with
  | none => rfl
  | some value => simp [hg] at h

theorem insertEntry_perm {α : Type} (map : List (String × α)) (key : String) (value : α) :
    List.Perm (insertEntry map key value) ((key, value) :: map) := by
  induction map with
  | nil => exact List.Perm.refl _
  | cons p rest ih =>
    obtain ⟨k, v⟩ := p
    unfold insertEntry
    split
    · exact List.Perm.refl _
    · exact (List.Perm.cons _ ih).trans (List.Perm.swap _ _ _)

/-- A new key makes the registry the old one with the new entry, up to the
place of the entry. -/
theorem setEntry_perm {α : Type} (map : List (String × α)) (key : String) (value : α)
    (h : key ∉ objectKeys map) :
    List.Perm (setEntry map key value) (map ++ [(key, value)]) := by
  unfold setEntry
  rw [getEntry_eq_none_of_not_mem map key h]
  have hcomm : List.Perm ([(key, value)] ++ map) (map ++ [(key, value)]) :=
    List.perm_append_comm
  exact (insertEntry_perm map key value).trans hcomm

theorem objectKeys_perm {α : Type} (m1 m2 : List (String × α)) (h : List.Perm m1 m2) :
    List.Perm (objectKeys m1) (objectKeys m2) :=
  List.Perm.map _ h

theorem getEntry_of_mem {α : Type} (map : List (String × α)) (key : String) (value : α)
    (hnodup : (objectKeys map).Nodup) (hmem : (key, value) ∈ map) :
    getEntry map key = some value := by
  induction map with
  | nil => cases hmem
  | cons p rest ih =>
    obtain ⟨k, v⟩ := p
    simp only [objectKeys, List.map_cons, List.nodup_cons] at hnodup
    rcases List.mem_cons.mp hmem with heq | hrest
    · cases heq
      simp [getEntry]
    · have hne : ¬ k = key := by
        intro e
        apply hnodup.1
        rw [e]
        exact List.mem_map.mpr ⟨(key, value), hrest, rfl⟩
      simp only [getEntry, hne, if_false]
      exact ih hnodup.2 hrest

theorem objectKeys_append {α : Type} (m1 m2 : List (String × α)) :
    objectKeys (m1 ++ m2) = objectKeys m1 ++ objectKeys m2 := by
  simp [objectKeys]

theorem mem_draggableEntries (registrations : List Registration)
    (descriptor : DraggableDescriptor) (getDimension : DraggableDimension)
    (h : Registration.draggable descriptor getDimension ∈ registrations) :
    (descriptor.id, ({ descriptor := descriptor, getDimension := getDimension } : DraggableEntry))
      ∈ draggableEntries registrations := by
  induction registrations with
  | nil => cases h
  | cons r rest ih =>
    rcases List.mem_cons.mp h with heq | hrest
    · subst heq
      simp [draggableEntries]
    · cases r with
      | draggable d g => exact List.mem_cons_of_mem _ (ih hrest)
      | droppable d c => exact ih hrest

theorem mem_droppableEntries (registrations : List Registration)
    (descriptor : DroppableDescriptor) (droppableCallbacks : DroppableCallbacks)
    (h : Registration.droppable descriptor droppableCallbacks ∈ registrations) :
    (descriptor.id, ({ descriptor := descriptor, callbacks := droppableCallbacks } : DroppableEntry))
      ∈ droppableEntries registrations := by
  induction registrations with
  | nil => cases h
  | cons r rest ih =>
    rcases List.mem_cons.mp h with heq | hrest
    · subst heq
      simp [droppableEntries]
    · cases r with
      | draggable d g => exact ih hrest
      | droppable d c => exact List.mem_cons_of_mem _ (ih hrest)

theorem draggableEntries_mem (registrations : List Registration)
    (key : String) (entry : DraggableEntry)
    (h : (key, entry) ∈ draggableEntries registrations) :
    ∃ descriptor getDimension,
      Registration.draggable descriptor getDimension ∈ registrations ∧ descriptor.id = key := by
  induction registrations with
  | nil => cases h
  | cons r rest ih =>
    cases r with
    | draggable d g =>
      rcases List.mem_cons.mp h with heq | hrest
      · cases heq
        exact ⟨d, g, List.mem_cons_self _ _, rfl⟩
      · obtain ⟨d1, g1, hmem, hid⟩ := ih hrest
        exact ⟨d1, g1, List.mem_cons_of_mem _ hmem, hid⟩
    | droppable d c =>
      obtain ⟨d1, g1, hmem, hid⟩ := ih h
      exact ⟨d1, g1, List.mem_cons_of_mem _ hmem, hid⟩

theorem droppableEntries_mem (registrations : List Registration)
    (key : String) (entry : DroppableEntry)
    (h : (key, entry) ∈ droppableEntries registrations) :
    ∃ descriptor droppableCallbacks,
      Registration.droppable descriptor droppableCallbacks ∈ registrations ∧
        descriptor.id = key := by
  induction registrations with
  | nil => cases h
  | cons r rest ih =>
    cases r with
    | draggable d g =>
      obtain ⟨d1, c1, hmem, hid⟩ := ih h
      exact ⟨d1, c1, List.mem_cons_of_mem _ hmem, hid⟩
    | droppable d c =>
      rcases List.mem_cons.mp h with heq | hrest
      · cases heq
        exact ⟨d, c, List.mem_cons_self _ _, rfl⟩
      · obtain ⟨d1, c1, hmem, hid⟩ := ih hrest
        exact ⟨d1, c1, List.mem_cons_of_mem _ hmem, hid⟩

/-- Registration never reaches its publishing branch: `state.collection` reads
`undefined` in every state. -/
theorem registerDraggable_effects (state : State) (host : Host)
    (descriptor : DraggableDescriptor) (getDimension : DraggableDimension) :
    (registerDraggable state host descriptor getDimension).effects = [] := by
  unfold registerDraggable
  simp only [State.collection, Option.isNone_none, if_true]
  split <;> rfl

theorem registerDroppable_effects (state : State) (host : Host)
    (descriptor : DroppableDescriptor) (droppableCallbacks : DroppableCallbacks) :
    (registerDroppable state host descriptor droppableCallbacks).effects = [] := by
  unfold registerDroppable
  simp only [State.collection, Option.isNone_none, if_true]
  split <;> rfl

theorem registerDraggable_fresh (state : State) (host : Host)
    (descriptor : DraggableDescriptor) (getDimension : DraggableDimension)
    (hOwn : descriptor.id ∉ objectKeys state.draggables)
    (hInherited : descriptor.id ∉ objectPrototypeKeys) :
    registerDraggable state host descriptor getDimension =
      { state := { state with
          draggables := setEntry state.draggables descriptor.id
            { descriptor := descriptor, getDimension := getDimension } }
        host := host, effects := [], completion := .normal } := by
  unfold registerDraggable
  simp only [readProperty_undefined_of_fresh _ _ hOwn hInherited, State.collection,
    Option.isNone_none, if_true]

theorem registerDroppable_fresh (state : State) (host : Host)
    (descriptor : DroppableDescriptor) (droppableCallbacks : DroppableCallbacks)
    (hOwn : descriptor.id ∉ objectKeys state.droppables)
    (hInherited : descriptor.id ∉ objectPrototypeKeys) :
    registerDroppable state host descriptor droppableCallbacks =
      { state := { state with
          droppables := setEntry state.droppables descriptor.id
            { descriptor := descriptor, callbacks := droppableCallbacks } }
        host := host, effects := [], completion := .normal } := by
  unfold registerDroppable
  simp only [readProperty_undefined_of_fresh _ _ hOwn hInherited, State.collection,
    Option.isNone_none, if_true]

/-- Without an active session `stopCollecting` returns at its guard. -/
theorem stopCollecting_of_not_collecting (state : State) (host : Host)
    (h : state.isCollecting = false) :
    stopCollecting state host =
      { state := state, host := host, effects := [], completion := .normal } := by
  simp [stopCollecting, h]

/-- The registry of the scenario is the one the six registrations build. -/
theorem registered_reachable :
    runCalls initialState initialHost Scenario.registrations =
      { state := Scenario.registered, host := initialHost, effects := [],
        completion := .normal } := by
  decide

/-- The registry with the container `"undefined"` is built by registrations. -/
theorem registeredWithUndefined_reachable :
    runCalls initialState initialHost
        (Scenario.registrations ++
          [Call.registerDroppable Scenario.cu (Scenario.callbacksOf Scenario.cu 7)]) =
      { state := Scenario.registeredWithUndefined, host := initialHost, effects := [],
        completion := .normal } := by
  decide

/-- A run of registrations whose identifiers are new, pairwise distinct
within each kind and no inherited names adds the entries asked for, each at the
place its key is enumerated, and does nothing else. -/
theorem runCalls_registrations (registrations : List Registration) :
    ∀ (state : State) (host : Host),
      (objectKeys state.draggables ++ objectKeys (draggableEntries registrations)).Nodup →
      (objectKeys state.droppables ++ objectKeys (droppableEntries registrations)).Nodup →
      (∀ id ∈ objectKeys (draggableEntries registrations), id ∉ objectPrototypeKeys) →
      (∀ id ∈ objectKeys (droppableEntries registrations), id ∉ objectPrototypeKeys) →
      ∃ draggables droppables,
        List.Perm draggables (state.draggables ++ draggableEntries registrations) ∧
        List.Perm droppables (state.droppables ++ droppableEntries registrations) ∧
        runCalls state host (registrations.map Registration.toCall) =
          { state := { state with draggables := draggables, droppables := droppables }
            host := host, effects := [], completion := .normal } := by
  induction registrations with
  | nil =>
    intro state host _ _ _ _
    exact ⟨state.draggables, state.droppables,
      by simp [draggableEntries], by simp [droppableEntries], by simp [runCalls]⟩
  | cons r rest ih =>
    intro state host hd hp hdi hpi
    cases r with
    | draggable d g =>
      have hfresh : d.id ∉ objectKeys state.draggables := by
        intro hmem
        exact (List.nodup_append.mp hd).2.2 hmem (by simp [draggableEntries, objectKeys])
      have hinh : d.id ∉ objectPrototypeKeys :=
        hdi d.id (by simp [draggableEntries, objectKeys])
      have hperm := setEntry_perm state.draggables d.id
        ({ descriptor := d, getDimension := g } : DraggableEntry) hfresh
      have hd1 : (objectKeys (setEntry state.draggables d.id
          ({ descriptor := d, getDimension := g } : DraggableEntry)) ++
          objectKeys (draggableEntries rest)).Nodup := by
        have hkeys := objectKeys_perm _ _ hperm
        refine (List.Perm.nodup_iff (List.Perm.append_right _ hkeys)).mpr ?_
        simpa [draggableEntries, objectKeys, List.append_assoc] using hd
      have hp1 : (objectKeys state.droppables ++
          objectKeys (droppableEntries rest)).Nodup := by
        simpa [droppableEntries] using hp
      obtain ⟨dg, dp, hdg, hdp, hrun⟩ := ih
        { state with draggables := (setEntry state.draggables d.id
            ({ descriptor := d, getDimension := g } : DraggableEntry)) } host hd1 hp1
        (fun id hid => hdi id (by
          simp only [draggableEntries, objectKeys, List.map_cons, List.mem_cons]
          exact Or.inr hid))
        (fun id hid => hpi id (by simpa [droppableEntries] using hid))
      refine ⟨dg, dp, ?_, ?_, ?_⟩
      · refine hdg.trans ?_
        have := List.Perm.append_right (draggableEntries rest) hperm
        simpa [draggableEntries, List.append_assoc] using this
      · simpa [droppableEntries] using hdp
      · simp only [List.map_cons, Registration.toCall, runCalls, runCall,
          registerDraggable_fresh state host d g hfresh hinh]
        rw [hrun]
        simp
    | droppable d c =>
      have hfresh : d.id ∉ objectKeys state.droppables := by
        intro hmem
        exact (List.nodup_append.mp hp).2.2 hmem (by simp [droppableEntries, objectKeys])
      have hinh : d.id ∉ objectPrototypeKeys :=
        hpi d.id (by simp [droppableEntries, objectKeys])
      have hperm := setEntry_perm state.droppables d.id
        ({ descriptor := d, callbacks := c } : DroppableEntry) hfresh
      have hp1 : (objectKeys (setEntry state.droppables d.id
          ({ descriptor := d, callbacks := c } : DroppableEntry)) ++
          objectKeys (droppableEntries rest)).Nodup := by
        have hkeys := objectKeys_perm _ _ hperm
        refine (List.Perm.nodup_iff (List.Perm.append_right _ hkeys)).mpr ?_
        simpa [droppableEntries, objectKeys, List.append_assoc] using hp
      have hd1 : (objectKeys state.draggables ++
          objectKeys (draggableEntries rest)).Nodup := by
        simpa [draggableEntries] using hd
      obtain ⟨dg, dp, hdg, hdp, hrun⟩ := ih
        { state with droppables := (setEntry state.droppables d.id
            ({ descriptor := d, callbacks := c } : DroppableEntry)) } host hd1 hp1
        (fun id hid => hdi id (by simpa [draggableEntries] using hid))
        (fun id hid => hpi id (by
          simp only [droppableEntries, objectKeys, List.map_cons, List.mem_cons]
          exact Or.inr hid))
      refine ⟨dg, dp, ?_, ?_, ?_⟩
      · simpa [draggableEntries] using hdg
      · refine hdp.trans ?_
        have := List.Perm.append_right (droppableEntries rest) hperm
        simpa [droppableEntries, List.append_assoc] using this
      · simp only [List.map_cons, Registration.toCall, runCalls, runCall,
          registerDroppable_fresh state host d c hfresh hinh]
        rw [hrun]
        simp

end DimensionMarshal

/-! ## The collection protocol -/

namespace DimensionMarshal

/-- C3: when the dragged item's entry and its home container's entry are
registered and no session is active, the synchronous part of
`startInitialCollection` makes exactly these calls, in this order: one
measurement of the home container, one of the dragged item, one
`publishDroppables` with the one-element list of the home dimension, one
`publishDraggables` with the one-element list of the item dimension, and one
`watchScroll` on the home container.  Nothing follows them but, at most, the
scheduling of the deferred task, which stays pending in the host; no animation
frame is requested. -/
theorem startInitialCollection_initial_publish (state : State) (host : Host)
    (descriptor : DraggableDescriptor) (draggableEntry : DraggableEntry)
    (homeEntry : DroppableEntry)
    (hDraggable : getEntry state.draggables descriptor.id = some draggableEntry)
    (hHome : getEntry state.droppables draggableEntry.descriptor.droppableId = some homeEntry)
    (_hIdle : state.isCollecting = false) :
    ∃ rest : List Effect,
      (startInitialCollection state host descriptor).effects =
        [Effect.getDroppableDimension homeEntry, Effect.getDraggableDimension draggableEntry,
          Effect.publishDroppables [homeEntry.callbacks.getDimension],
          Effect.publishDraggables [draggableEntry.getDimension],
          Effect.watchScroll homeEntry] ++ rest ∧
      ((rest = [] ∧ (startInitialCollection state host descriptor).host = host) ∨
        ∃ toBeCollected,
          rest = [Effect.setTimeout host.nextTimeoutId (Task.collect toBeCollected)] ∧
          (startInitialCollection state host descriptor).host.timeouts =
            host.timeouts ++ [(host.nextTimeoutId, Task.collect toBeCollected)]) ∧
      (startInitialCollection state host descriptor).host.frames = host.frames := by
  unfold startInitialCollection
  simp only [State.dragging, Option.isSome_none, Bool.false_eq_true, if_false,
    readProperty_of_getEntry _ _ _ hDraggable, readProperty_of_getEntry _ _ _ hHome]
  cases draggablesToBeCollected state.draggables state.droppables descriptor
      homeEntry.callbacks.getDimension with
  | none => exact ⟨[], by simp, Or.inl ⟨rfl, rfl⟩, rfl⟩
  | some ds =>
    cases droppablesToBeCollected state.droppables homeEntry.callbacks.getDimension with
    | none => exact ⟨[], by simp, Or.inl ⟨rfl, rfl⟩, rfl⟩
    | some ks =>
      exact ⟨_, rfl, Or.inr ⟨_, rfl, rfl⟩, rfl⟩

/-- Witness of C3 on the registry of the scenario, for item A. -/
theorem startInitialCollection_initial_publish_witness :
    getEntry Scenario.registered.draggables Scenario.a.id = some Scenario.entryA ∧
    getEntry Scenario.registered.droppables Scenario.entryA.descriptor.droppableId =
      some Scenario.entryC1 ∧
    Scenario.registered.isCollecting = false ∧
    ∃ rest : List Effect,
      (startInitialCollection Scenario.registered initialHost Scenario.a).effects =
        [Effect.getDroppableDimension Scenario.entryC1,
          Effect.getDraggableDimension Scenario.entryA,
          Effect.publishDroppables [Scenario.entryC1.callbacks.getDimension],
          Effect.publishDraggables [Scenario.entryA.getDimension],
          Effect.watchScroll Scenario.entryC1] ++ rest ∧
      ((rest = [] ∧
          (startInitialCollection Scenario.registered initialHost Scenario.a).host = initialHost) ∨
        ∃ toBeCollected,
          rest = [Effect.setTimeout initialHost.nextTimeoutId (Task.collect toBeCollected)] ∧
          (startInitialCollection Scenario.registered initialHost Scenario.a).host.timeouts =
            initialHost.timeouts ++ [(initialHost.nextTimeoutId, Task.collect toBeCollected)]) ∧
      (startInitialCollection Scenario.registered initialHost Scenario.a).host.frames =
        initialHost.frames :=
  ⟨rfl, rfl, rfl,
    startInitialCollection_initial_publish Scenario.registered initialHost Scenario.a
      Scenario.entryA Scenario.entryC1 rfl rfl rfl⟩

/-- C7, as amended: collection start aborts on a missing prerequisite.  From
every state and host: `onStateChange` for the phase
`COLLECTING_INITIAL_DIMENSIONS` without a requested descriptor,
`startInitialCollection` for a descriptor whose identifier has no item entry
and is no name inherited from `Object.prototype`, and `startInitialCollection`
for a descriptor whose entry's owning container identifier has no container
entry and is no inherited name each make the single call `callbacks.cancel()`
and nothing else: no measurement, no publication, no `watchScroll`, no
scheduled task, and the state and the host are left as they were. -/
theorem collection_start_aborts_on_missing_prerequisite (state : State) (host : Host) :
    (∀ current : AppState, current.phase = "COLLECTING_INITIAL_DIMENSIONS" →
      current.dimension.request = none →
      onStateChange state host current =
        { state := state, host := host, effects := [Effect.cancel], completion := .normal }) ∧
    (∀ descriptor : DraggableDescriptor, getEntry state.draggables descriptor.id = none →
      descriptor.id ∉ objectPrototypeKeys →
      startInitialCollection state host descriptor =
        { state := state, host := host, effects := [Effect.cancel], completion := .normal }) ∧
    (∀ (descriptor : DraggableDescriptor) (draggableEntry : DraggableEntry),
      getEntry state.draggables descriptor.id = some draggableEntry →
      getEntry state.droppables draggableEntry.descriptor.droppableId = none →
      draggableEntry.descriptor.droppableId ∉ objectPrototypeKeys →
      startInitialCollection state host descriptor =
        { state := state, host := host, effects := [Effect.cancel], completion := .normal }) := by
  refine ⟨?_, ?_, ?_⟩
  · intro current hphase hrequest
    unfold onStateChange
    simp only [hphase, if_true, hrequest]
  · intro descriptor hnone hinherited
    unfold startInitialCollection
    simp only [State.dragging, Option.isSome_none, Bool.false_eq_true, if_false,
      readProperty, hnone, hinherited]
  · intro descriptor draggableEntry hsome hnone hinherited
    unfold startInitialCollection
    simp only [State.dragging, Option.isSome_none, Bool.false_eq_true, if_false,
      readProperty, hsome, hnone, hinherited]

/-- Witness of C7, as amended, on the registry of the scenario with the item
E, whose container is not registered: a request without a descriptor, a start
for the unregistered item Z, and a start for E. -/
theorem collection_start_aborts_on_missing_prerequisite_witness :
    (Scenario.collectingForNothing.phase = "COLLECTING_INITIAL_DIMENSIONS" ∧
      Scenario.collectingForNothing.dimension.request = none ∧
      onStateChange Scenario.registeredWithOrphan initialHost Scenario.collectingForNothing =
        { state := Scenario.registeredWithOrphan, host := initialHost,
          effects := [Effect.cancel], completion := .normal }) ∧
    (getEntry Scenario.registeredWithOrphan.draggables Scenario.z.id = none ∧
      Scenario.z.id ∉ objectPrototypeKeys ∧
      startInitialCollection Scenario.registeredWithOrphan initialHost Scenario.z =
        { state := Scenario.registeredWithOrphan, host := initialHost,
          effects := [Effect.cancel], completion := .normal }) ∧
    (getEntry Scenario.registeredWithOrphan.draggables Scenario.e.id = some Scenario.entryE ∧
      getEntry Scenario.registeredWithOrphan.droppables
        Scenario.entryE.descriptor.droppableId = none ∧
      Scenario.entryE.descriptor.droppableId ∉ objectPrototypeKeys ∧
      startInitialCollection Scenario.registeredWithOrphan initialHost Scenario.e =
        { state := Scenario.registeredWithOrphan, host := initialHost,
          effects := [Effect.cancel], completion := .normal }) :=
  ⟨⟨rfl, rfl,
      (collection_start_aborts_on_missing_prerequisite Scenario.registeredWithOrphan
        initialHost).1 Scenario.collectingForNothing rfl rfl⟩,
    ⟨rfl, by decide,
      (collection_start_aborts_on_missing_prerequisite Scenario.registeredWithOrphan
        initialHost).2.1 Scenario.z rfl (by decide)⟩,
    ⟨rfl, rfl, by decide,
      (collection_start_aborts_on_missing_prerequisite Scenario.registeredWithOrphan
        initialHost).2.2 Scenario.e Scenario.entryE rfl rfl (by decide)⟩⟩

/-- Counterexample to C7 as stated: on the registry of the scenario no item is
registered under `"toString"`, yet the request to collect for a descriptor with
that identifier makes no call to `callbacks.cancel()` and ends with an uncaught
`TypeError` (the inherited member passes the test of line 256, line 262 reads
through it).  The same happens for the registered item G, whose owning
container identifier `"constructor"` has no container entry (line 264 is
passed, line 273 throws). -/
theorem collection_start_inherited_name :
    getEntry Scenario.registered.draggables Scenario.itemToString.id = none ∧
    runCalls Scenario.registered initialHost
        [Call.onStateChange (Scenario.collectingFor Scenario.itemToString)] =
      { state := Scenario.registered, host := initialHost, effects := [],
        completion := .typeError } ∧
    getEntry Scenario.registeredWithG.draggables Scenario.g.id = some Scenario.entryG ∧
    getEntry Scenario.registeredWithG.droppables Scenario.entryG.descriptor.droppableId
      = none ∧
    runCalls Scenario.registeredWithG initialHost
        [Call.onStateChange (Scenario.collectingFor Scenario.g)] =
      { state := Scenario.registeredWithG, host := initialHost, effects := [],
        completion := .typeError } := by
  decide

/-- C10, as amended: registrations on a fresh marshal, with identifiers
pairwise distinct within each kind and none of them a name inherited from
`Object.prototype`, leave a registry whose item keys are exactly the registered
item identifiers and whose container keys are exactly the registered container
identifiers, each key once, each identifier mapped to the entry built from the
descriptor and the capabilities passed for it; `isCollecting` and `timers` are
as in the fresh marshal, no outward call is made and nothing is scheduled. -/
theorem registrations_build_registry (host : Host) (registrations : List Registration)
    (hDraggables : (objectKeys (draggableEntries registrations)).Nodup)
    (hDroppables : (objectKeys (droppableEntries registrations)).Nodup)
    (hDraggableNames :
      ∀ id ∈ objectKeys (draggableEntries registrations), id ∉ objectPrototypeKeys)
    (hDroppableNames :
      ∀ id ∈ objectKeys (droppableEntries registrations), id ∉ objectPrototypeKeys) :
    (∀ id, id ∈ objectKeys
        (runCalls initialState host (registrations.map Registration.toCall)).state.draggables ↔
      ∃ descriptor getDimension,
        Registration.draggable descriptor getDimension ∈ registrations ∧ descriptor.id = id) ∧
    (∀ id, id ∈ objectKeys
        (runCalls initialState host (registrations.map Registration.toCall)).state.droppables ↔
      ∃ descriptor droppableCallbacks,
        Registration.droppable descriptor droppableCallbacks ∈ registrations ∧
          descriptor.id = id) ∧
    (objectKeys
      (runCalls initialState host (registrations.map Registration.toCall)).state.draggables).Nodup ∧
    (objectKeys
      (runCalls initialState host (registrations.map Registration.toCall)).state.droppables).Nodup ∧
    (∀ descriptor getDimension, Registration.draggable descriptor getDimension ∈ registrations →
      getEntry (runCalls initialState host (registrations.map Registration.toCall)).state.draggables
        descriptor.id = some { descriptor := descriptor, getDimension := getDimension }) ∧
    (∀ descriptor droppableCallbacks,
      Registration.droppable descriptor droppableCallbacks ∈ registrations →
      getEntry (runCalls initialState host (registrations.map Registration.toCall)).state.droppables
        descriptor.id = some { descriptor := descriptor, callbacks := droppableCallbacks }) ∧
    (runCalls initialState host (registrations.map Registration.toCall)).state.isCollecting =
      initialState.isCollecting ∧
    (runCalls initialState host (registrations.map Registration.toCall)).state.timers =
      initialState.timers ∧
    (runCalls initialState host (registrations.map Registration.toCall)).effects = [] ∧
    (runCalls initialState host (registrations.map Registration.toCall)).host = host ∧
    (runCalls initialState host (registrations.map Registration.toCall)).completion =
      .normal := by
  obtain ⟨dg, dp, hdg, hdp, hrun⟩ :=
    runCalls_registrations registrations initialState host
      (by simpa [initialState] using hDraggables) (by simpa [initialState] using hDroppables)
      hDraggableNames hDroppableNames
  have hdg1 : List.Perm dg (draggableEntries registrations) := by
    simpa [initialState] using hdg
  have hdp1 : List.Perm dp (droppableEntries registrations) := by
    simpa [initialState] using hdp
  have hkd := objectKeys_perm _ _ hdg1
  have hkp := objectKeys_perm _ _ hdp1
  have hnd : (objectKeys dg).Nodup := (List.Perm.nodup_iff hkd).mpr hDraggables
  have hnp : (objectKeys dp).Nodup := (List.Perm.nodup_iff hkp).mpr hDroppables
  rw [hrun]
  refine ⟨?_, ?_, hnd, hnp, ?_, ?_, rfl, rfl, rfl, rfl, rfl⟩
  · intro id
    constructor
    · intro hmem
      obtain ⟨⟨k, entry⟩, hin, hk⟩ := List.mem_map.mp ((List.Perm.mem_iff hkd).mp hmem)
      obtain ⟨descriptor, getDimension, hreg, hid⟩ := draggableEntries_mem registrations k entry hin
      exact ⟨descriptor, getDimension, hreg, hid.trans hk⟩
    · rintro ⟨descriptor, getDimension, hreg, hid⟩
      exact (List.Perm.mem_iff hkd).mpr (List.mem_map.mpr
        ⟨_, mem_draggableEntries registrations descriptor getDimension hreg, hid⟩)
  · intro id
    constructor
    · intro hmem
      obtain ⟨⟨k, entry⟩, hin, hk⟩ := List.mem_map.mp ((List.Perm.mem_iff hkp).mp hmem)
      obtain ⟨descriptor, droppableCallbacks, hreg, hid⟩ :=
        droppableEntries_mem registrations k entry hin
      exact ⟨descriptor, droppableCallbacks, hreg, hid.trans hk⟩
    · rintro ⟨descriptor, droppableCallbacks, hreg, hid⟩
      exact (List.Perm.mem_iff hkp).mpr (List.mem_map.mpr
        ⟨_, mem_droppableEntries registrations descriptor droppableCallbacks hreg, hid⟩)
  · intro descriptor getDimension hreg
    exact getEntry_of_mem _ _ _ hnd
      ((List.Perm.mem_iff hdg1).mpr (mem_draggableEntries registrations descriptor getDimension hreg))
  · intro descriptor droppableCallbacks hreg
    exact getEntry_of_mem _ _ _ hnp
      ((List.Perm.mem_iff hdp1).mpr
        (mem_droppableEntries registrations descriptor droppableCallbacks hreg))

/-- Witness of C10, as amended, on the six registrations of the scenario. -/
theorem registrations_build_registry_witness :
    (objectKeys (draggableEntries Scenario.registrationList)).Nodup ∧
    (objectKeys (droppableEntries Scenario.registrationList)).Nodup ∧
    (∀ id ∈ objectKeys (draggableEntries Scenario.registrationList),
      id ∉ objectPrototypeKeys) ∧
    (∀ id ∈ objectKeys (droppableEntries Scenario.registrationList),
      id ∉ objectPrototypeKeys) ∧
    getEntry (runCalls initialState initialHost
        (Scenario.registrationList.map Registration.toCall)).state.draggables Scenario.b.id =
      some { descriptor := Scenario.b, getDimension := Scenario.dimensionOf Scenario.b 5 } ∧
    (runCalls initialState initialHost
      (Scenario.registrationList.map Registration.toCall)).effects = [] :=
  ⟨by decide, by decide, by decide, by decide,
    (registrations_build_registry initialHost Scenario.registrationList
      (by decide) (by decide) (by decide) (by decide)).2.2.2.2.1 Scenario.b
      (Scenario.dimensionOf Scenario.b 5) (by decide),
    (registrations_build_registry initialHost Scenario.registrationList
      (by decide) (by decide) (by decide) (by decide)).2.2.2.2.2.2.2.2.1⟩

/-- Counterexample to C10 as stated: on a fresh marshal the single registration
of an item with the identifier `"constructor"` is refused at line 72 (the
inherited member is truthy): the registry stays empty and has no entry for
the identifier. -/
theorem registration_inherited_name_refused :
    (objectKeys (draggableEntries
      [Registration.draggable Scenario.itemConstructor
        (Scenario.dimensionOf Scenario.itemConstructor 11)])).Nodup ∧
    runCalls initialState initialHost
        ([Registration.draggable Scenario.itemConstructor
          (Scenario.dimensionOf Scenario.itemConstructor 11)].map Registration.toCall) =
      { state := initialState, host := initialHost, effects := [], completion := .normal } ∧
    getEntry (runCalls initialState initialHost
        ([Registration.draggable Scenario.itemConstructor
          (Scenario.dimensionOf Scenario.itemConstructor 11)].map
            Registration.toCall)).state.draggables "constructor" = none := by
  decide

/-- C1, evaluated on the registry of the scenario for item A: after the
initial publication `startInitialCollection` ends with an uncaught `TypeError`
and hands no candidate list to any deferred task (the host is left without a
pending task), because the container filters run over the key strings of
`Object.keys(droppables)` and read `droppables[undefined]`.  With a container
registered under `"undefined"` the list is built, and it holds the key of the
home container C1 and the key of C3, whose type differs from the home type. -/
theorem startInitialCollection_candidates_scenario :
    startInitialCollection Scenario.registered initialHost Scenario.a =
      { state := Scenario.registered, host := initialHost,
        effects := Scenario.initialEffects, completion := .typeError } ∧
    droppablesToBeCollected Scenario.registered.droppables
      Scenario.entryC1.callbacks.getDimension = none ∧
    (startInitialCollection Scenario.registeredWithUndefined initialHost Scenario.a).host.timeouts =
      [(1, Task.collect
        [.key "C1", .key "C2", .key "C3", .key "undefined", .draggable Scenario.b])] := by
  decide

/-- C2, evaluated: the six registrations of the scenario followed by the
request to collect for A publish the dimensions of C1 and A and then end with
an uncaught `TypeError`; the registry is as registered, no timer handle is
recorded and the host has no pending task, so firing any timeout or frame
handle afterwards makes no call: the batches [B] and [C2] are never
published. -/
theorem scenario_end_to_end :
    runCalls initialState initialHost
        (Scenario.registrations ++ [Call.onStateChange (Scenario.collectingFor Scenario.a)]) =
      { state := Scenario.registered, host := initialHost,
        effects := Scenario.initialEffects, completion := .typeError } ∧
    initialHost.timeouts = [] ∧ initialHost.frames = [] ∧
    ∀ handle : Nat,
      (fireTimeout Scenario.registered initialHost handle).effects = [] ∧
      (fireFrame Scenario.registered initialHost handle).effects = [] := by
  refine ⟨by decide, rfl, rfl, fun handle => ⟨rfl, rfl⟩⟩

/-- C4, evaluated: from the registry of the scenario with a session marked
active and a deferred task recorded, `startInitialCollection` for A makes no
call to `callbacks.cancel()`; it measures and publishes C1 and A again.  And
from the registry with the container `"undefined"`, where a first start
completes, a second start is not rejected either: it publishes again and
schedules a second deferred task. -/
theorem startInitialCollection_reentrant_scenario :
    startInitialCollection Scenario.collecting initialHost Scenario.a =
      { state := Scenario.collecting, host := initialHost,
        effects := Scenario.initialEffects, completion := .typeError } ∧
    Effect.cancel ∉
      (runCalls Scenario.registeredWithUndefined initialHost
        [Call.onStateChange (Scenario.collectingFor Scenario.a),
          Call.onStateChange (Scenario.collectingFor Scenario.a)]).effects ∧
    ((runCalls Scenario.registeredWithUndefined initialHost
        [Call.onStateChange (Scenario.collectingFor Scenario.a),
          Call.onStateChange (Scenario.collectingFor Scenario.a)]).host.timeouts.map Prod.fst) =
      [1, 2] := by
  decide

/-- C5, evaluated: after `startInitialCollection` for A on the registry of the
scenario the session flag is still `false` and no timer handle is recorded, and
`stopCollecting` then does nothing (no `unwatchScroll` on C1).  On the registry
with the container `"undefined"`, where the start completes, the handle 1 is
recorded but the flag is still `false`: `stopCollecting`, and `onStateChange`
for `IDLE`, `DROP_ANIMATING` and `DROP_COMPLETE`, make no call and leave the
deferred task pending, and the host then runs it. -/
theorem stop_after_start_scenario :
    (startInitialCollection Scenario.registered initialHost Scenario.a).state.isCollecting
      = false ∧
    (startInitialCollection Scenario.registered initialHost Scenario.a).state.timers = noTimers ∧
    stopCollecting Scenario.registered initialHost =
      { state := Scenario.registered, host := initialHost, effects := [],
        completion := .normal } ∧
    (startInitialCollection Scenario.registeredWithUndefined initialHost
      Scenario.a).state.isCollecting = false ∧
    (startInitialCollection Scenario.registeredWithUndefined initialHost
      Scenario.a).state.timers = { liftTimeoutId := some 1, collectionFrameId := none } ∧
    (stopCollecting
      (startInitialCollection Scenario.registeredWithUndefined initialHost Scenario.a).state
      (startInitialCollection Scenario.registeredWithUndefined initialHost Scenario.a).host).effects
      = [] ∧
    (runCalls
      (startInitialCollection Scenario.registeredWithUndefined initialHost Scenario.a).state
      (startInitialCollection Scenario.registeredWithUndefined initialHost Scenario.a).host
      [Call.onStateChange (Scenario.stateInPhase "IDLE"),
        Call.onStateChange (Scenario.stateInPhase "DROP_ANIMATING"),
        Call.onStateChange (Scenario.stateInPhase "DROP_COMPLETE")]) =
      { state :=
          (startInitialCollection Scenario.registeredWithUndefined initialHost Scenario.a).state
        host :=
          (startInitialCollection Scenario.registeredWithUndefined initialHost Scenario.a).host
        effects := [], completion := .normal } ∧
    (runCalls Scenario.registeredWithUndefined initialHost
      [Call.onStateChange (Scenario.collectingFor Scenario.a),
        Call.onStateChange (Scenario.stateInPhase "IDLE"),
        Call.fireTimeout 1]).host.frames.map Prod.fst = [1] := by
  decide

/-- C6, evaluated: with a session marked active, registering the new item F
and the new container C4 inserts the entries but calls no measurement callback
and no publish callback. -/
theorem register_mid_session_scenario :
    registerDraggable Scenario.collecting initialHost Scenario.f
        (Scenario.dimensionOf Scenario.f 9) =
      { state := { Scenario.collecting with
          draggables := Scenario.collecting.draggables ++
            [("F", { descriptor := Scenario.f,
                     getDimension := Scenario.dimensionOf Scenario.f 9 })] }
        host := initialHost, effects := [], completion := .normal } ∧
    registerDroppable Scenario.collecting initialHost Scenario.c4
        (Scenario.callbacksOf Scenario.c4 10) =
      { state := { Scenario.collecting with
          droppables := Scenario.collecting.droppables ++
            [("C4", { descriptor := Scenario.c4,
                      callbacks := Scenario.callbacksOf Scenario.c4 10 })] }
        host := initialHost, effects := [], completion := .normal } := by
  decide

end DimensionMarshal

/-! ## The displacement calculator -/

namespace GetDisplacement

open DimensionMarshal

/-- C8: when the visibility test returns true, the displacement has
`isVisible = true` and the item's identifier; its `shouldAnimate` is true when
the previous impact's displacement map has no record for the identifier, and is
the `shouldAnimate` of that record when it has one. -/
theorem getDisplacement_visible {ClientRect : Type}
    (isDisplacedDraggableVisible : VisibilityArgs ClientRect → Bool)
    (getDisplacementMap : List Displacement → DraggableId → Option Displacement)
    (args : Args ClientRect)
    (hVisible : isDisplacedDraggableVisible
      { displaced := args.draggable, droppable := args.destination,
        viewport := args.viewport } = true) :
    (getDisplacement isDisplacedDraggableVisible getDisplacementMap args).isVisible = true ∧
    (getDisplacement isDisplacedDraggableVisible getDisplacementMap args).draggableId =
      args.draggable.descriptor.id ∧
    (getDisplacementMap args.previousImpact.movement.displaced args.draggable.descriptor.id
        = none →
      (getDisplacement isDisplacedDraggableVisible getDisplacementMap args).shouldAnimate
        = true) ∧
    (∀ previous,
      getDisplacementMap args.previousImpact.movement.displaced args.draggable.descriptor.id
        = some previous →
      (getDisplacement isDisplacedDraggableVisible getDisplacementMap args).shouldAnimate
        = previous.shouldAnimate) := by
  refine ⟨?_, rfl, ?_, ?_⟩
  · simp only [getDisplacement, hVisible]
  · intro hnone
    simp only [getDisplacement, hVisible, hnone, Bool.not_true, Bool.false_eq_true, if_false]
  · intro previous hsome
    simp only [getDisplacement, hVisible, hsome, Bool.not_true, Bool.false_eq_true, if_false]

/-- Witness of C8: item A visible, with a previous record for A whose
`shouldAnimate` is false. -/
theorem getDisplacement_visible_witness :
    (fun _ : VisibilityArgs Unit => true)
      { displaced := (argsFor [⟨"A", false, false⟩]).draggable,
        droppable := (argsFor [⟨"A", false, false⟩]).destination,
        viewport := (argsFor [⟨"A", false, false⟩]).viewport } = true ∧
    lastRecord (argsFor [⟨"A", false, false⟩]).previousImpact.movement.displaced
      (argsFor [⟨"A", false, false⟩]).draggable.descriptor.id = some ⟨"A", false, false⟩ ∧
    (getDisplacement (fun _ => true) lastRecord (argsFor [⟨"A", false, false⟩])).isVisible
      = true ∧
    (getDisplacement (fun _ => true) lastRecord (argsFor [⟨"A", false, false⟩])).shouldAnimate
      = false :=
  ⟨rfl, by decide,
    (getDisplacement_visible (fun _ => true) lastRecord (argsFor [⟨"A", false, false⟩]) rfl).1,
    (getDisplacement_visible (fun _ => true) lastRecord (argsFor [⟨"A", false, false⟩])
      rfl).2.2.2 ⟨"A", false, false⟩ (by decide)⟩

/-- C9: when the visibility test returns false, the displacement is the item's
identifier with `isVisible = false` and `shouldAnimate = false`, whatever the
previous impact holds; and in every displacement `shouldAnimate` implies
`isVisible`. -/
theorem getDisplacement_invisible {ClientRect : Type}
    (isDisplacedDraggableVisible : VisibilityArgs ClientRect → Bool)
    (getDisplacementMap : List Displacement → DraggableId → Option Displacement)
    (args : Args ClientRect) :
    (isDisplacedDraggableVisible
        { displaced := args.draggable, droppable := args.destination,
          viewport := args.viewport } = false →
      getDisplacement isDisplacedDraggableVisible getDisplacementMap args =
        { draggableId := args.draggable.descriptor.id, isVisible := false,
          shouldAnimate := false }) ∧
    ((getDisplacement isDisplacedDraggableVisible getDisplacementMap args).shouldAnimate
        = true →
      (getDisplacement isDisplacedDraggableVisible getDisplacementMap args).isVisible
        = true) := by
  constructor
  · intro hInvisible
    simp only [getDisplacement, hInvisible, Bool.not_false, if_true]
  · intro hAnimate
    cases hVisible : isDisplacedDraggableVisible
        { displaced := args.draggable, droppable := args.destination,
          viewport := args.viewport } with
    | true => simp only [getDisplacement, hVisible]
    | false =>
      simp only [getDisplacement, hVisible, Bool.not_false, if_true] at hAnimate
      exact absurd hAnimate (by decide)

/-- Witness of C9: item A not visible, with a previous record for A whose
`shouldAnimate` is true. -/
theorem getDisplacement_invisible_witness :
    lastRecord (argsFor [⟨"A", true, true⟩]).previousImpact.movement.displaced
      (argsFor [⟨"A", true, true⟩]).draggable.descriptor.id = some ⟨"A", true, true⟩ ∧
    getDisplacement (fun _ => false) lastRecord (argsFor [⟨"A", true, true⟩]) =
      { draggableId := "A", isVisible := false, shouldAnimate := false } :=
  ⟨by decide,
    (getDisplacement_invisible (fun _ => false) lastRecord (argsFor [⟨"A", true, true⟩])).1 rfl⟩

end GetDisplacement

/-! ## Registration and unregistration -/

namespace DimensionMarshal

theorem getEntry_deleteEntry_self {α : Type} (map : List (String × α)) (key : String) :
    getEntry (deleteEntry map key) key = none := by
  apply getEntry_eq_none_of_not_mem
  intro hmem
  obtain ⟨p, hp, hkey⟩ := List.mem_map.mp hmem
  have hne := (List.mem_filter.mp hp).2
  simp only [decide_eq_true_eq] at hne
  exact hne hkey

theorem getEntry_deleteEntry_other {α : Type} (map : List (String × α)) (key other : String)
    (h : other ≠ key) : getEntry (deleteEntry map key) other = getEntry map other := by
  induction map with
  | nil => rfl
  | cons p rest ih =>
    obtain ⟨k, v⟩ := p
    by_cases hk : k = key
    · have hne : ¬ k = other := fun e => h (e.symm.trans hk)
      have hdel : deleteEntry ((k, v) :: rest) key = deleteEntry rest key := by
        simp [deleteEntry, List.filter, hk]
      rw [hdel, ih]
      simp only [getEntry, hne, if_false]
    · have hdel : deleteEntry ((k, v) :: rest) key = (k, v) :: deleteEntry rest key := by
        simp [deleteEntry, List.filter, hk]
      rw [hdel]
      simp only [getEntry, ih]

theorem deleteEntry_of_getEntry_none {α : Type} (map : List (String × α)) (key : String)
    (h : getEntry map key = none) : deleteEntry map key = map := by
  have hnot := not_mem_objectKeys_of_getEntry_none map key h
  unfold deleteEntry
  apply List.filter_eq_self.mpr
  intro p hp
  simp only [decide_eq_true_eq]
  intro hkey
  exact hnot (List.mem_map.mpr ⟨p, hp, hkey⟩)

theorem deleteEntry_sublist {α : Type} (map : List (String × α)) (key : String) :
    List.Sublist (deleteEntry map key) map :=
  List.filter_sublist map

/-- C11: duplicate registration is a no-op.  In every state, with or without
an active session, `registerDraggable` for a descriptor whose identifier
already has an item entry, and `registerDroppable` for a descriptor whose
identifier already has a container entry, leave the state (and so the original
entry) and the host as they were and make no outward call. -/
theorem register_duplicate_noop (state : State) (host : Host) :
    (∀ (descriptor : DraggableDescriptor) (getDimension : DraggableDimension)
      (entry : DraggableEntry), getEntry state.draggables descriptor.id = some entry →
      registerDraggable state host descriptor getDimension =
          { state := state, host := host, effects := [], completion := .normal } ∧
        getEntry (registerDraggable state host descriptor getDimension).state.draggables
          descriptor.id = some entry) ∧
    (∀ (descriptor : DroppableDescriptor) (droppableCallbacks : DroppableCallbacks)
      (entry : DroppableEntry), getEntry state.droppables descriptor.id = some entry →
      registerDroppable state host descriptor droppableCallbacks =
          { state := state, host := host, effects := [], completion := .normal } ∧
        getEntry (registerDroppable state host descriptor droppableCallbacks).state.droppables
          descriptor.id = some entry) := by
  constructor
  · intro descriptor getDimension entry h
    have hrun : registerDraggable state host descriptor getDimension =
        { state := state, host := host, effects := [], completion := .normal } := by
      unfold registerDraggable
      simp only [readProperty_of_getEntry _ _ _ h]
    exact ⟨hrun, by rw [hrun]; exact h⟩
  · intro descriptor droppableCallbacks entry h
    have hrun : registerDroppable state host descriptor droppableCallbacks =
        { state := state, host := host, effects := [], completion := .normal } := by
      unfold registerDroppable
      simp only [readProperty_of_getEntry _ _ _ h]
    exact ⟨hrun, by rw [hrun]; exact h⟩

/-- Witness of C11: registering item A and container C1 again, with other
capabilities, while a session is marked active. -/
theorem register_duplicate_noop_witness :
    (getEntry Scenario.collecting.draggables Scenario.a.id = some Scenario.entryA ∧
      registerDraggable Scenario.collecting initialHost Scenario.a
          (Scenario.dimensionOf Scenario.a 40) =
        { state := Scenario.collecting, host := initialHost, effects := [],
          completion := .normal }) ∧
    (getEntry Scenario.collecting.droppables Scenario.c1.id = some Scenario.entryC1 ∧
      registerDroppable Scenario.collecting initialHost Scenario.c1
          (Scenario.callbacksOf Scenario.c1 10) =
        { state := Scenario.collecting, host := initialHost, effects := [],
          completion := .normal }) :=
  ⟨⟨rfl, ((register_duplicate_noop Scenario.collecting initialHost).1 Scenario.a
      (Scenario.dimensionOf Scenario.a 40) Scenario.entryA rfl).1⟩,
    ⟨rfl, ((register_duplicate_noop Scenario.collecting initialHost).2 Scenario.c1
      (Scenario.callbacksOf Scenario.c1 10) Scenario.entryC1 rfl).1⟩⟩

/-- C12: unregistering a present identifier removes exactly that entry.  In
every state, with or without an active session, after `unregisterDraggable(id)`
for an identifier with an item entry the item map has no entry for `id`, holds
for every other identifier what it held, and has gained nothing; the container
map, `isCollecting` and `timers` are as before and no outward call is made.
The same holds for `unregisterDroppable` with the two maps exchanged. -/
theorem unregister_present_removes_entry (state : State) (host : Host) (id : String) :
    (∀ entry : DraggableEntry, getEntry state.draggables id = some entry →
      getEntry (unregisterDraggable state host id).state.draggables id = none ∧
      (∀ other, other ≠ id →
        getEntry (unregisterDraggable state host id).state.draggables other =
          getEntry state.draggables other) ∧
      List.Sublist (unregisterDraggable state host id).state.draggables state.draggables ∧
      (unregisterDraggable state host id).state.droppables = state.droppables ∧
      (unregisterDraggable state host id).state.isCollecting = state.isCollecting ∧
      (unregisterDraggable state host id).state.timers = state.timers ∧
      (unregisterDraggable state host id).effects = [] ∧
      (unregisterDraggable state host id).host = host ∧
      (unregisterDraggable state host id).completion = .normal) ∧
    (∀ entry : DroppableEntry, getEntry state.droppables id = some entry →
      getEntry (unregisterDroppable state host id).state.droppables id = none ∧
      (∀ other, other ≠ id →
        getEntry (unregisterDroppable state host id).state.droppables other =
          getEntry state.droppables other) ∧
      List.Sublist (unregisterDroppable state host id).state.droppables state.droppables ∧
      (unregisterDroppable state host id).state.draggables = state.draggables ∧
      (unregisterDroppable state host id).state.isCollecting = state.isCollecting ∧
      (unregisterDroppable state host id).state.timers = state.timers ∧
      (unregisterDroppable state host id).effects = [] ∧
      (unregisterDroppable state host id).host = host ∧
      (unregisterDroppable state host id).completion = .normal) := by
  constructor
  · intro entry h
    have hrun : unregisterDraggable state host id =
        { state := { state with draggables := deleteEntry state.draggables id }, host := host,
          effects := [], completion := .normal } := by
      unfold unregisterDraggable
      simp only [readProperty_of_getEntry _ _ _ h]
    rw [hrun]
    exact ⟨getEntry_deleteEntry_self _ _, fun other hne => getEntry_deleteEntry_other _ _ _ hne,
      deleteEntry_sublist _ _, rfl, rfl, rfl, rfl, rfl, rfl⟩
  · intro entry h
    have hrun : unregisterDroppable state host id =
        { state := { state with droppables := deleteEntry state.droppables id }, host := host,
          effects := [], completion := .normal } := by
      unfold unregisterDroppable
      simp only [readProperty_of_getEntry _ _ _ h]
    rw [hrun]
    exact ⟨getEntry_deleteEntry_self _ _, fun other hne => getEntry_deleteEntry_other _ _ _ hne,
      deleteEntry_sublist _ _, rfl, rfl, rfl, rfl, rfl, rfl⟩

/-- Witness of C12: unregistering item B while a session is marked active. -/
theorem unregister_present_removes_entry_witness :
    getEntry Scenario.collecting.draggables "B" = some Scenario.entryB ∧
    getEntry (unregisterDraggable Scenario.collecting initialHost "B").state.draggables "B"
      = none ∧
    (unregisterDraggable Scenario.collecting initialHost "B").state.draggables =
      Scenario.withoutB.draggables ∧
    (unregisterDraggable Scenario.collecting initialHost "B").effects = [] :=
  ⟨rfl,
    ((unregister_present_removes_entry Scenario.collecting initialHost "B").1
      Scenario.entryB rfl).1,
    by decide,
    ((unregister_present_removes_entry Scenario.collecting initialHost "B").1
      Scenario.entryB rfl).2.2.2.2.2.2.1⟩

/-- C13: unregistering an absent identifier is a no-op.  In every state,
`unregisterDraggable(id)` for an identifier without an item entry and
`unregisterDroppable(id)` for an identifier without a container entry leave the
state and the host as they were and make no outward call. -/
theorem unregister_absent_noop (state : State) (host : Host) (id : String) :
    (getEntry state.draggables id = none →
      unregisterDraggable state host id =
        { state := state, host := host, effects := [], completion := .normal }) ∧
    (getEntry state.droppables id = none →
      unregisterDroppable state host id =
        { state := state, host := host, effects := [], completion := .normal }) := by
  constructor
  · intro h
    have hdelete := deleteEntry_of_getEntry_none state.draggables id h
    unfold unregisterDraggable
    by_cases hinherited : id ∈ objectPrototypeKeys
    · simp only [readProperty, h, hinherited, if_true, hdelete]
    · simp only [readProperty, h, hinherited, if_false]
  · intro h
    have hdelete := deleteEntry_of_getEntry_none state.droppables id h
    unfold unregisterDroppable
    by_cases hinherited : id ∈ objectPrototypeKeys
    · simp only [readProperty, h, hinherited, if_true, hdelete]
    · simp only [readProperty, h, hinherited, if_false]

/-- Witness of C13: the identifier `"Z"` is in neither map of the scenario. -/
theorem unregister_absent_noop_witness :
    (getEntry Scenario.registered.draggables "Z" = none ∧
      unregisterDraggable Scenario.registered initialHost "Z" =
        { state := Scenario.registered, host := initialHost, effects := [],
          completion := .normal }) ∧
    (getEntry Scenario.registered.droppables "Z" = none ∧
      unregisterDroppable Scenario.registered initialHost "Z" =
        { state := Scenario.registered, host := initialHost, effects := [],
          completion := .normal }) :=
  ⟨⟨rfl, (unregister_absent_noop Scenario.registered initialHost "Z").1 rfl⟩,
    ⟨rfl, (unregister_absent_noop Scenario.registered initialHost "Z").2 rfl⟩⟩

end DimensionMarshal

/-! ## Stopping a collection -/

namespace DimensionMarshal

theorem getEntry_isSome_of_mem {α : Type} (map : List (String × α)) (key : String)
    (h : key ∈ objectKeys map) : ∃ value, getEntry map key = some value := by
  induction map with
  | nil => cases h
  | cons p rest ih =>
    obtain ⟨k, v⟩ := p
    by_cases hk : k = key
    · exact ⟨v, by simp only [getEntry, hk, if_true]⟩
    · have hrest : key ∈ objectKeys rest := by
        simp only [objectKeys, List.map_cons, List.mem_cons] at h
        rcases h with h | h
        · exact absurd h.symm hk
        · exact h
      obtain ⟨value, hvalue⟩ := ih hrest
      exact ⟨value, by simp only [getEntry, hk, if_false, hvalue]⟩

theorem unwatchAll_map_some (entries : List DroppableEntry) :
    unwatchAll (entries.map some) = (entries.map Effect.unwatchScroll, .normal) := by
  induction entries with
  | nil => rfl
  | cons entry rest ih => simp only [List.map_cons, unwatchAll, ih]

/-- The entries looked up for a list of own keys are all defined. -/
theorem lookups_defined (map : DroppableEntryMap) (keys : List String)
    (h : ∀ key ∈ keys, key ∈ objectKeys map) :
    ∃ entries : List DroppableEntry,
      keys.map (fun id => getEntry map id) = entries.map some := by
  induction keys with
  | nil => exact ⟨[], rfl⟩
  | cons key rest ih =>
    obtain ⟨entries, hentries⟩ := ih (fun k hk => h k (List.mem_cons_of_mem _ hk))
    obtain ⟨value, hvalue⟩ := getEntry_isSome_of_mem map key (h key (List.mem_cons_self _ _))
    exact ⟨value :: entries, by simp only [List.map_cons, hvalue, hentries]⟩

/-- With pairwise distinct keys, looking up every own key gives the entries of
the registry, each once, in the order of the keys. -/
theorem lookups_of_nodup (map : DroppableEntryMap) (h : (objectKeys map).Nodup) :
    (objectKeys map).map (fun id => getEntry map id) = (map.map Prod.snd).map some := by
  induction map with
  | nil => rfl
  | cons p rest ih =>
    obtain ⟨k, v⟩ := p
    simp only [objectKeys, List.map_cons, List.nodup_cons] at h
    have hhead : getEntry ((k, v) :: rest) k = some v := by simp only [getEntry, if_true]
    have htail : (rest.map Prod.fst).map (fun id => getEntry ((k, v) :: rest) id) =
        (rest.map Prod.fst).map (fun id => getEntry rest id) := by
      apply List.map_congr_left
      intro key hkey
      have hne : ¬ k = key := fun e => h.1 (e ▸ hkey)
      simp only [getEntry, hne, if_false]
    have ih1 := ih h.2
    simp only [objectKeys] at ih1
    simp only [objectKeys, List.map_cons, hhead, htail, ih1]

theorem findTask_filter_not (tasks : List (Nat × Task)) (handle : Nat) :
    findTask (tasks.filter (fun p => !decide (p.1 = handle))) handle = none := by
  induction tasks with
  | nil => rfl
  | cons p rest ih =>
    obtain ⟨h, task⟩ := p
    by_cases hh : h = handle
    · simpa [List.filter, hh] using ih
    · simpa [List.filter, hh, findTask] using ih

theorem findTask_filter_self (tasks : List (Nat × Task)) (handle : Nat) :
    findTask (tasks.filter (fun p => decide (p.1 ≠ handle))) handle = none := by
  simpa using findTask_filter_not tasks handle

/-- The run of `stopCollecting` with an active session, given the entries its
lookups return. -/
theorem stopCollecting_active_eq (state : State) (host : Host)
    (entries : List DroppableEntry) (hActive : state.isCollecting = true)
    (hEntries : (objectKeys state.droppables).map (fun id => getEntry state.droppables id) =
      entries.map some) :
    (stopCollecting state host).state =
      { state with isCollecting := false, timers := noTimers } ∧
    (stopCollecting state host).completion = .normal ∧
    (stopCollecting state host).effects =
      entries.map Effect.unwatchScroll ++
        ((state.timers.liftTimeoutId.filter (fun h => decide (h ≠ 0))).map
          Effect.clearTimeout).toList ++
        ((state.timers.collectionFrameId.filter (fun h => decide (h ≠ 0))).map
          Effect.cancelAnimationFrame).toList ∧
    (∀ handle, state.timers.liftTimeoutId = some handle → handle ≠ 0 →
      findTask (stopCollecting state host).host.timeouts handle = none) ∧
    (∀ handle, state.timers.collectionFrameId = some handle → handle ≠ 0 →
      findTask (stopCollecting state host).host.frames handle = none) := by
  obtain ⟨droppables, draggables, isCollecting, ⟨lift, frame⟩⟩ := state
  simp only at hActive hEntries
  subst hActive
  unfold stopCollecting
  simp only [Bool.not_true, Bool.false_eq_true, if_false, hEntries, unwatchAll_map_some]
  rcases lift with _ | lift <;> rcases frame with _ | frame
  · simp [Option.filter]
  · by_cases hf : frame = 0
    · simp [Option.filter, handleTruthy, hf]
    · simp [Option.filter, handleTruthy, hf, Host.cancelAnimationFrame, findTask_filter_not]
  · by_cases hl : lift = 0
    · simp [Option.filter, handleTruthy, hl]
    · simp [Option.filter, handleTruthy, hl, Host.clearTimeout, findTask_filter_not]
  · by_cases hl : lift = 0 <;> by_cases hf : frame = 0 <;>
      simp [Option.filter, handleTruthy, hl, hf, Host.clearTimeout, Host.cancelAnimationFrame,
        findTask_filter_not]

end DimensionMarshal

/-! ## Stop signals -/

namespace DimensionMarshal

/-- C14: `stopCollecting` with an active session.  For every state with
`isCollecting = true` (the keys of the container map being pairwise distinct,
as the keys of an object are), the calls made are one `unwatchScroll` on each
registered container entry, then `clearTimeout` of `timers.liftTimeoutId` when
it holds a handle, then `cancelAnimationFrame` of `timers.collectionFrameId`
when it holds a handle, and nothing else; a handle is held when the field is a
non-zero number, which is what the source tests.  The cancelled tasks are no
longer pending, and the state left has `isCollecting = false`, both timers
`null` and the two maps unchanged. -/
theorem stopCollecting_active (state : State) (host : Host)
    (hActive : state.isCollecting = true) (hKeys : (objectKeys state.droppables).Nodup) :
    (stopCollecting state host).state =
      { state with isCollecting := false, timers := noTimers } ∧
    (stopCollecting state host).completion = .normal ∧
    (stopCollecting state host).effects =
      (state.droppables.map Prod.snd).map Effect.unwatchScroll ++
        ((state.timers.liftTimeoutId.filter (fun h => decide (h ≠ 0))).map
          Effect.clearTimeout).toList ++
        ((state.timers.collectionFrameId.filter (fun h => decide (h ≠ 0))).map
          Effect.cancelAnimationFrame).toList ∧
    (∀ handle, state.timers.liftTimeoutId = some handle → handle ≠ 0 →
      findTask (stopCollecting state host).host.timeouts handle = none) ∧
    (∀ handle, state.timers.collectionFrameId = some handle → handle ≠ 0 →
      findTask (stopCollecting state host).host.frames handle = none) :=
  stopCollecting_active_eq state host (state.droppables.map Prod.snd) hActive
    (lookups_of_nodup state.droppables hKeys)

/-- Witness of C14: the registry of the scenario with a session marked active,
the timeout 1 and the frame 2 recorded and pending. -/
theorem stopCollecting_active_witness :
    Scenario.collectingBoth.isCollecting = true ∧
    (objectKeys Scenario.collectingBoth.droppables).Nodup ∧
    (stopCollecting Scenario.collectingBoth Scenario.hostBoth).state = Scenario.registered ∧
    (stopCollecting Scenario.collectingBoth Scenario.hostBoth).effects =
      [Effect.unwatchScroll Scenario.entryC1, Effect.unwatchScroll Scenario.entryC2,
        Effect.unwatchScroll Scenario.entryC3, Effect.clearTimeout 1,
        Effect.cancelAnimationFrame 2] ∧
    findTask (stopCollecting Scenario.collectingBoth Scenario.hostBoth).host.timeouts 1
      = none :=
  ⟨rfl, by decide,
    (stopCollecting_active Scenario.collectingBoth Scenario.hostBoth rfl (by decide)).1,
    (stopCollecting_active Scenario.collectingBoth Scenario.hostBoth rfl (by decide)).2.2.1,
    (stopCollecting_active Scenario.collectingBoth Scenario.hostBoth rfl (by decide)).2.2.2.1
      1 rfl (by decide)⟩

/-- C15: `stopCollecting` is idempotent.  From every state and host, a second
call right after a first one leaves the state and the host the first call left
and makes no call at all: no `unwatchScroll`, no timer cancellation, nothing on
the publication sink. -/
theorem stopCollecting_idempotent (state : State) (host : Host) :
    stopCollecting (stopCollecting state host).state (stopCollecting state host).host =
      { state := (stopCollecting state host).state, host := (stopCollecting state host).host,
        effects := [], completion := .normal } := by
  apply stopCollecting_of_not_collecting
  cases h : state.isCollecting
  · rw [stopCollecting_of_not_collecting state host h]
    exact h
  · obtain ⟨entries, hentries⟩ :=
      lookups_defined state.droppables (objectKeys state.droppables) (fun _ hk => hk)
    rw [(stopCollecting_active_eq state host entries h hentries).1]

/-- C16: `stopCollecting` without an active session is a guarded no-op.  For
every state with `isCollecting = false`, whatever the registry holds, the call
completes normally, leaves the state and the host as they were and makes no
call: no `unwatchScroll`, no timer cancellation, no publish, no cancel. -/
theorem stopCollecting_idle_noop (state : State) (host : Host)
    (hIdle : state.isCollecting = false) :
    stopCollecting state host =
      { state := state, host := host, effects := [], completion := .normal } :=
  stopCollecting_of_not_collecting state host hIdle

/-- Witness of C16: the state of a fresh marshal, and the registry of the
scenario. -/
theorem stopCollecting_idle_noop_witness :
    (initialState.isCollecting = false ∧
      stopCollecting initialState initialHost =
        { state := initialState, host := initialHost, effects := [],
          completion := .normal }) ∧
    (Scenario.registered.isCollecting = false ∧
      stopCollecting Scenario.registered initialHost =
        { state := Scenario.registered, host := initialHost, effects := [],
          completion := .normal }) :=
  ⟨⟨rfl, stopCollecting_idle_noop initialState initialHost rfl⟩,
    ⟨rfl, stopCollecting_idle_noop Scenario.registered initialHost rfl⟩⟩

/-- In the two drop phases `onStateChange` is the run of `stopCollecting`,
with or without an active session. -/
theorem onStateChange_drop_phases (state : State) (host : Host) (current : AppState)
    (hPhase : current.phase = "DROP_ANIMATING" ∨ current.phase = "DROP_COMPLETE") :
    onStateChange state host current = stopCollecting state host := by
  rcases hPhase with h | h <;> simp [onStateChange, onStateChangeDrop, h]

/-- C17, evaluated: with a session marked active, the timeout 1 and the frame
2 recorded and pending, `onStateChange` for the phase `IDLE` makes no call and
leaves the state and the host as they were, the session still active and both
tasks still pending, whereas `stopCollecting` from the same state unwatches the
three containers, cancels both handles and resets the session: the `IDLE` block
of lines 374 to 379 lies after the brace that closes `onStateChange`.  For the
two drop phases the run is the run of `stopCollecting`. -/
theorem onStateChange_idle_scenario :
    onStateChange Scenario.collectingBoth Scenario.hostBoth (Scenario.stateInPhase "IDLE") =
      { state := Scenario.collectingBoth, host := Scenario.hostBoth, effects := [],
        completion := .normal } ∧
    stopCollecting Scenario.collectingBoth Scenario.hostBoth =
      { state := Scenario.registered
        host := { Scenario.hostBoth with timeouts := [], frames := [] }
        effects :=
          [Effect.unwatchScroll Scenario.entryC1, Effect.unwatchScroll Scenario.entryC2,
            Effect.unwatchScroll Scenario.entryC3, Effect.clearTimeout 1,
            Effect.cancelAnimationFrame 2]
        completion := .normal } ∧
    onStateChange Scenario.collectingBoth Scenario.hostBoth
        (Scenario.stateInPhase "DROP_ANIMATING") =
      stopCollecting Scenario.collectingBoth Scenario.hostBoth ∧
    onStateChange Scenario.collectingBoth Scenario.hostBoth
        (Scenario.stateInPhase "DROP_COMPLETE") =
      stopCollecting Scenario.collectingBoth Scenario.hostBoth := by
  decide

/-- C18: the other phases of the phase reactor.  For every state and every
application state whose phase is none of `COLLECTING_INITIAL_DIMENSIONS`,
`DROP_ANIMATING`, `DROP_COMPLETE` and `IDLE`, `onStateChange` leaves the state
and the host as they were and makes no call: no measurement, no publish, no
cancel, no `watchScroll` or `unwatchScroll`, nothing scheduled or cancelled. -/
theorem onStateChange_other_phases (state : State) (host : Host) (current : AppState)
    (hCollecting : current.phase ≠ "COLLECTING_INITIAL_DIMENSIONS")
    (hAnimating : current.phase ≠ "DROP_ANIMATING")
    (hComplete : current.phase ≠ "DROP_COMPLETE")
    (hIdle : current.phase ≠ "IDLE") :
    onStateChange state host current =
      { state := state, host := host, effects := [], completion := .normal } := by
  have _ := hIdle
  simp [onStateChange, onStateChangeDrop, hCollecting, hAnimating, hComplete]

/-- Witness of C18: the phase `DRAGGING` with a session marked active. -/
theorem onStateChange_other_phases_witness :
    onStateChange Scenario.collectingBoth Scenario.hostBoth (Scenario.stateInPhase "DRAGGING") =
      { state := Scenario.collectingBoth, host := Scenario.hostBoth, effects := [],
        completion := .normal } :=
  onStateChange_other_phases Scenario.collectingBoth Scenario.hostBoth
    (Scenario.stateInPhase "DRAGGING") (by decide) (by decide) (by decide) (by decide)

end DimensionMarshal

/-! ## The two frames of a collection -/

namespace DimensionMarshal

theorem measureAll_measurements (state : State) (toBeCollected : List UnknownDescriptorType) :
    ∀ e ∈ (measureAll state toBeCollected).1, e.isMeasurement = true := by
  induction toBeCollected with
  | nil => intro e he; cases he
  | cons descriptor rest ih =>
    intro e he
    unfold measureAll at he
    split at he
    · split at he
      · cases he
      · rcases List.mem_cons.mp he with h | h
        · subst h; rfl
        · exact ih e h
    · split at he
      · cases he
      · rcases List.mem_cons.mp he with h | h
        · subst h; rfl
        · exact ih e h

theorem measureAll_cons_of_some (state : State) (descriptor : UnknownDescriptorType)
    (rest : List UnknownDescriptorType) (pair : Effect × UnknownDimensionType)
    (h : measureOne state descriptor = some pair) :
    measureAll state (descriptor :: rest) =
      (pair.1 :: (measureAll state rest).1,
        (measureAll state rest).2.map (fun b => pair.2 :: b)) := by
  unfold measureOne at h
  rw [measureAll]
  split at h
  · rename_i htype
    simp only [htype, if_true]
    cases hentry : getEntry state.droppables (toPropertyKey descriptor.id) with
    | none => simp [hentry] at h
    | some entry =>
      simp only [hentry, Option.map_some', Option.some.injEq] at h
      subst h
      rfl
  · rename_i htype
    simp only [htype, if_false, Bool.false_eq_true]
    cases hentry : getEntry state.draggables (toPropertyKey descriptor.id) with
    | none => simp [hentry] at h
    | some entry =>
      simp only [hentry, Option.map_some', Option.some.injEq] at h
      subst h
      rfl

theorem collectMeasure_of_buffer (state : State) (host : Host)
    (toBeCollected : List UnknownDescriptorType) (reads : List Effect)
    (buffer : List UnknownDimensionType)
    (h : measureAll state toBeCollected = (reads, some buffer)) :
    collectMeasure state host toBeCollected =
      { state := setFrameId state (some host.nextFrameId)
        host := (host.requestAnimationFrame (.publish buffer)).2
        effects := reads ++ [Effect.requestAnimationFrame host.nextFrameId (.publish buffer)]
        completion := .normal } := by
  unfold collectMeasure
  rw [h]
  rfl

theorem collectMeasure_of_throw (state : State) (host : Host)
    (toBeCollected : List UnknownDescriptorType) (reads : List Effect)
    (h : measureAll state toBeCollected = (reads, none)) :
    collectMeasure state host toBeCollected =
      { state := state, host := host, effects := reads, completion := .typeError } := by
  unfold collectMeasure
  rw [h]

theorem foldl_pushDimension (buffer : List UnknownDimensionType) :
    ∀ previous : ToBePublished,
      buffer.foldl pushDimension previous =
        { draggables := previous.draggables ++ draggableDimensions buffer
          droppables := previous.droppables ++ droppableDimensions buffer } := by
  induction buffer with
  | nil => intro previous; simp [draggableDimensions, droppableDimensions]
  | cons dimension rest ih =>
    intro previous
    cases dimension with
    | draggable d =>
      simp [List.foldl, pushDimension, ih, draggableDimensions, droppableDimensions]
    | droppable d =>
      simp [List.foldl, pushDimension, ih, draggableDimensions, droppableDimensions]

theorem watchAll_watches (state : State) (dimensions : List DroppableDimension) :
    ∀ e ∈ (watchAll state dimensions).1, ∃ entry, e = Effect.watchScroll entry := by
  induction dimensions with
  | nil => intro e he; cases he
  | cons dimension rest ih =>
    intro e he
    unfold watchAll at he
    split at he
    · cases he
    · rename_i entry _
      rcases List.mem_cons.mp he with h | h
      · exact ⟨entry, h⟩
      · exact ih e h

/-- When every published container has its registry entry, Phase 2 calls
`watchScroll` once on the entry of each, in order. -/
theorem watchAll_resolved (state : State) (dimensions : List DroppableDimension)
    (h : ∀ dimension ∈ dimensions,
      (getEntry state.droppables dimension.descriptor.id).isSome = true) :
    ∃ entries : List DroppableEntry,
      List.Forall₂
        (fun dimension entry => getEntry state.droppables dimension.descriptor.id = some entry)
        dimensions entries ∧
      watchAll state dimensions = (entries.map Effect.watchScroll, .normal) := by
  induction dimensions with
  | nil => exact ⟨[], List.Forall₂.nil, rfl⟩
  | cons dimension rest ih =>
    obtain ⟨entries, hforall, hall⟩ := ih (fun d hd => h d (List.mem_cons_of_mem _ hd))
    obtain ⟨entry, hentry⟩ :=
      Option.isSome_iff_exists.mp (h dimension (List.mem_cons_self _ _))
    refine ⟨entry :: entries, List.Forall₂.cons hentry hforall, ?_⟩
    simp only [watchAll, hentry, hall, List.map_cons]

theorem collectPublish_effects (state : State) (host : Host)
    (buffer : List UnknownDimensionType) :
    (collectPublish state host buffer).effects =
      [Effect.publishDroppables (droppableDimensions buffer),
        Effect.publishDraggables (draggableDimensions buffer)] ++
        (watchAll state (droppableDimensions buffer)).1 := by
  unfold collectPublish
  simp only [foldl_pushDimension, List.nil_append]
  split <;> simp_all

theorem draggableDimensions_eq_filter (buffer : List UnknownDimensionType) :
    (draggableDimensions buffer).map UnknownDimensionType.draggable =
      buffer.filter (fun d => d.placeholder) := by
  induction buffer with
  | nil => rfl
  | cons dimension rest ih =>
    cases dimension <;>
      simp [draggableDimensions, UnknownDimensionType.placeholder, List.filter, ih]

theorem droppableDimensions_eq_filter (buffer : List UnknownDimensionType) :
    (droppableDimensions buffer).map UnknownDimensionType.droppable =
      buffer.filter (fun d => !d.placeholder) := by
  induction buffer with
  | nil => rfl
  | cons dimension rest ih =>
    cases dimension <;>
      simp [droppableDimensions, UnknownDimensionType.placeholder, List.filter, ih]

theorem dimensions_length (buffer : List UnknownDimensionType) :
    (draggableDimensions buffer).length + (droppableDimensions buffer).length =
      buffer.length := by
  induction buffer with
  | nil => rfl
  | cons dimension rest ih =>
    cases dimension <;> simp [draggableDimensions, droppableDimensions] <;> omega

end DimensionMarshal

/-! ## Order of reads and writes, and the Phase 2 partition -/

namespace DimensionMarshal

theorem isPublication_of_isMeasurement (e : Effect) (h : e.isMeasurement = true) :
    e.isPublication = false := by
  cases e <;> simp_all [Effect.isMeasurement, Effect.isPublication]

theorem isMeasurement_of_isPublication (e : Effect) (h : e.isPublication = true) :
    e.isMeasurement = false := by
  cases e <;> simp_all [Effect.isMeasurement, Effect.isPublication]

/-- In a trace made of effects that are no writes followed by effects that are
no measurements, no write precedes a measurement. -/
theorem pairwise_reads_writes (first second : List Effect)
    (h1 : ∀ e ∈ first, e.isPublication = false)
    (h2 : ∀ e ∈ second, e.isMeasurement = false) :
    List.Pairwise (fun x y => ¬ (x.isPublication = true ∧ y.isMeasurement = true))
      (first ++ second) := by
  refine List.pairwise_append.mpr ⟨?_, ?_, ?_⟩
  · apply List.pairwise_of_forall_mem_list
    intro a ha b _ hab
    rw [h1 a ha] at hab
    exact Bool.noConfusion hab.1
  · apply List.pairwise_of_forall_mem_list
    intro a _ b hb hab
    rw [h2 b hb] at hab
    exact Bool.noConfusion hab.2
  · intro a ha b _ hab
    rw [h1 a ha] at hab
    exact Bool.noConfusion hab.1

/-- The effects of the Phase 1 task: measurements, then at most the request of
the Phase 2 frame. -/
theorem collectMeasure_shape (state : State) (host : Host)
    (toBeCollected : List UnknownDescriptorType) :
    ∃ reads rest : List Effect,
      (collectMeasure state host toBeCollected).effects = reads ++ rest ∧
      (∀ e ∈ reads, e.isMeasurement = true) ∧
      (rest = [] ∨
        ∃ buffer, rest = [Effect.requestAnimationFrame host.nextFrameId (.publish buffer)]) := by
  have hreads := measureAll_measurements state toBeCollected
  cases hm : measureAll state toBeCollected with
  | mk reads buffer =>
    rw [hm] at hreads
    cases buffer with
    | none =>
      refine ⟨reads, [], ?_, hreads, Or.inl rfl⟩
      rw [collectMeasure_of_throw state host toBeCollected reads hm]
      simp
    | some buffer =>
      refine ⟨reads, _, ?_, hreads, Or.inr ⟨buffer, rfl⟩⟩
      rw [collectMeasure_of_buffer state host toBeCollected reads buffer hm]

theorem collectPublish_publications (state : State) (host : Host)
    (buffer : List UnknownDimensionType) :
    ∀ e ∈ (collectPublish state host buffer).effects, e.isPublication = true := by
  intro e he
  rw [collectPublish_effects] at he
  rcases List.mem_append.mp he with h | h
  · simp only [List.mem_cons, List.mem_singleton, List.not_mem_nil, or_false] at h
    rcases h with h | h <;> subst h <;> rfl
  · obtain ⟨entry, hentry⟩ := watchAll_watches state _ e h
    subst hentry
    rfl

theorem measureOne_eq_own (state : State) (descriptor : UnknownDescriptorType)
    (h : descriptor.kindTold = true) :
    measureOne state descriptor = ownMeasurement state descriptor := by
  cases descriptor with
  | key k => simp [UnknownDescriptorType.kindTold] at h
  | draggable d =>
    simp [measureOne, ownMeasurement, UnknownDescriptorType.typeTruthy,
      UnknownDescriptorType.id, toPropertyKey]
  | droppable d =>
    simp only [UnknownDescriptorType.kindTold] at h
    simp [measureOne, ownMeasurement, UnknownDescriptorType.typeTruthy,
      UnknownDescriptorType.id, toPropertyKey, h]

/-- When the kind of every candidate is told and every candidate has its own
entry, Phase 1 calls the measurement callback of each candidate's own entry
once, in order, and buffers the dimension each call returned. -/
theorem measureAll_own (state : State) (toBeCollected : List UnknownDescriptorType)
    (h : ∀ descriptor ∈ toBeCollected,
      descriptor.kindTold = true ∧ (ownMeasurement state descriptor).isSome = true) :
    ∃ pairs : List (Effect × UnknownDimensionType),
      List.Forall₂ (fun descriptor pair => ownMeasurement state descriptor = some pair)
        toBeCollected pairs ∧
      measureAll state toBeCollected = (pairs.map Prod.fst, some (pairs.map Prod.snd)) := by
  induction toBeCollected with
  | nil => exact ⟨[], List.Forall₂.nil, rfl⟩
  | cons descriptor rest ih =>
    obtain ⟨pairs, hforall, hall⟩ := ih (fun d hd => h d (List.mem_cons_of_mem _ hd))
    obtain ⟨htold, hsome⟩ := h descriptor (List.mem_cons_self _ _)
    obtain ⟨pair, hpair⟩ := Option.isSome_iff_exists.mp hsome
    have hone : measureOne state descriptor = some pair := by
      rw [measureOne_eq_own state descriptor htold]
      exact hpair
    refine ⟨pair :: pairs, List.Forall₂.cons hpair hforall, ?_⟩
    rw [measureAll_cons_of_some state descriptor rest pair hone, hall]
    rfl

/-- Candidates whose `type` is falsy are measured as items: the buffer holds no
container dimension. -/
theorem measureAll_untyped (state : State) (toBeCollected : List UnknownDescriptorType)
    (h : ∀ descriptor ∈ toBeCollected, descriptor.typeTruthy = false) :
    ∀ (reads : List Effect) (buffer : List UnknownDimensionType),
      measureAll state toBeCollected = (reads, some buffer) →
      droppableDimensions buffer = [] := by
  induction toBeCollected with
  | nil =>
    intro reads buffer hm
    simp only [measureAll, Prod.mk.injEq, Option.some.injEq] at hm
    rw [← hm.2]
    rfl
  | cons descriptor rest ih =>
    intro reads buffer hm
    have htype := h descriptor (List.mem_cons_self _ _)
    rw [measureAll] at hm
    simp only [htype, Bool.false_eq_true, if_false] at hm
    cases hentry : getEntry state.draggables (toPropertyKey descriptor.id) with
    | none => simp [hentry] at hm
    | some entry =>
      simp only [hentry] at hm
      cases hrest : measureAll state rest with
      | mk effects restBuffer =>
        rw [hrest] at hm
        cases restBuffer with
        | none => simp at hm
        | some b =>
          simp only [Option.map_some', Prod.mk.injEq, Option.some.injEq] at hm
          rw [← hm.2]
          simp only [droppableDimensions]
          exact ih (fun d hd => h d (List.mem_cons_of_mem _ hd)) effects b hrest

theorem filterThrowing_mem {α : Type} (callback : α → Option Bool) (list : List α) :
    ∀ kept, filterThrowing callback list = some kept → ∀ x ∈ kept, x ∈ list := by
  induction list with
  | nil =>
    intro kept h x hx
    simp only [filterThrowing, Option.some.injEq] at h
    rw [← h] at hx
    exact hx
  | cons a rest ih =>
    intro kept h x hx
    rw [filterThrowing] at h
    cases hcall : callback a with
    | none => simp [hcall] at h
    | some keep =>
      simp only [hcall] at h
      cases hrest : filterThrowing callback rest with
      | none => simp [hrest] at h
      | some keptRest =>
        simp only [hrest, Option.some.injEq] at h
        rw [← h] at hx
        cases keep with
        | true =>
          simp only [if_true] at hx
          rcases List.mem_cons.mp hx with hxa | hxr
          · rw [hxa]
            exact List.mem_cons_self _ _
          · exact List.mem_cons_of_mem _ (ih keptRest hrest x hxr)
        | false =>
          simp only [Bool.false_eq_true, if_false] at hx
          exact List.mem_cons_of_mem _ (ih keptRest hrest x hx)

/-- The candidates `startInitialCollection` hands to the deferred task are key
strings and item descriptors: the `type` of each reads falsy. -/
theorem startInitialCollection_candidates_untyped (state : State) (host : Host)
    (descriptor : DraggableDescriptor) (handle : Nat)
    (toBeCollected : List UnknownDescriptorType)
    (h : Effect.setTimeout handle (.collect toBeCollected) ∈
      (startInitialCollection state host descriptor).effects) :
    ∀ candidate ∈ toBeCollected, candidate.typeTruthy = false := by
  unfold startInitialCollection at h
  simp only [State.dragging, Option.isSome_none, Bool.false_eq_true, if_false] at h
  cases hd : readProperty state.draggables descriptor.id with
  | undefined => simp [hd] at h
  | inherited => simp [hd] at h
  | entry draggableEntry =>
    simp only [hd] at h
    cases hh : readProperty state.droppables draggableEntry.descriptor.droppableId with
    | undefined => simp [hh] at h
    | inherited => simp [hh] at h
    | entry homeEntry =>
      simp only [hh] at h
      cases hds : draggablesToBeCollected state.draggables state.droppables descriptor
          homeEntry.callbacks.getDimension with
      | none => simp [hds] at h
      | some ds =>
        simp only [hds] at h
        cases hks : droppablesToBeCollected state.droppables
            homeEntry.callbacks.getDimension with
        | none => simp [hks] at h
        | some ks =>
          simp only [hks] at h
          have hboth : handle = host.nextTimeoutId ∧
              toBeCollected = ks ++ ds.map UnknownDescriptorType.draggable := by
            simpa [Host.setTimeout] using h
          have hlist := hboth.2
          intro candidate hc
          rw [hlist] at hc
          rcases List.mem_append.mp hc with hk | hdr
          · have hmem := filterThrowing_mem _ _ ks hks candidate hk
            obtain ⟨c, _, hc1⟩ := List.mem_map.mp (List.mem_filter.mp hmem).1
            rw [← hc1]
            rfl
          · obtain ⟨d, _, hd1⟩ := List.mem_map.mp hdr
            rw [← hd1]
            rfl

/-- C19, as amended: the order of reads and writes of `collect`.  For every
candidate list: `collect` only requests the first frame; the first task makes
measurement calls only and, after the last of them, at most the request of the
second frame; the second task makes `publishDroppables`, `publishDraggables`
and `watchScroll` calls only; so in the trace of the two tasks no publish or
`watchScroll` call precedes a measurement.  When every candidate is an item
descriptor, or a container descriptor with a non-empty type, and has its own
entry in the registry as the first task runs, the measurement callback of each
candidate's own entry is called exactly once, in the order of the list, and the
second frame is requested with the buffer of the dimensions returned. -/
theorem collect_reads_before_writes (state : State) (host : Host)
    (toBeCollected : List UnknownDescriptorType) :
    (collect state host toBeCollected).effects =
      [Effect.requestAnimationFrame host.nextFrameId (.measure toBeCollected)] ∧
    (∃ reads rest : List Effect,
      (runTask state host (.measure toBeCollected)).effects = reads ++ rest ∧
      (∀ e ∈ reads, e.isMeasurement = true) ∧
      (rest = [] ∨
        ∃ buffer,
          rest = [Effect.requestAnimationFrame host.nextFrameId (.publish buffer)])) ∧
    (∀ (state2 : State) (host2 : Host) (buffer : List UnknownDimensionType),
      (∀ e ∈ (runTask state2 host2 (.publish buffer)).effects, e.isPublication = true) ∧
      List.Pairwise (fun x y => ¬ (x.isPublication = true ∧ y.isMeasurement = true))
        ((runTask state host (.measure toBeCollected)).effects ++
          (runTask state2 host2 (.publish buffer)).effects)) ∧
    ((∀ descriptor ∈ toBeCollected,
        descriptor.kindTold = true ∧ (ownMeasurement state descriptor).isSome = true) →
      ∃ pairs : List (Effect × UnknownDimensionType),
        List.Forall₂ (fun descriptor pair => ownMeasurement state descriptor = some pair)
          toBeCollected pairs ∧
        (runTask state host (.measure toBeCollected)).effects =
          pairs.map Prod.fst ++
            [Effect.requestAnimationFrame host.nextFrameId (.publish (pairs.map Prod.snd))] ∧
        (runTask state host (.measure toBeCollected)).completion = .normal) := by
  refine ⟨rfl, collectMeasure_shape state host toBeCollected, ?_, ?_⟩
  · intro state2 host2 buffer
    refine ⟨collectPublish_publications state2 host2 buffer, ?_⟩
    apply pairwise_reads_writes
    · intro e he
      obtain ⟨reads, rest, heff, hreads, hrest⟩ := collectMeasure_shape state host toBeCollected
      have he1 : e ∈ reads ++ rest := by
        rw [← heff]
        exact he
      rcases List.mem_append.mp he1 with h | h
      · exact isPublication_of_isMeasurement e (hreads e h)
      · rcases hrest with hnil | ⟨buffer1, hone⟩
        · rw [hnil] at h
          cases h
        · rw [hone] at h
          rw [List.mem_singleton.mp h]
          rfl
    · intro e he
      exact isMeasurement_of_isPublication e (collectPublish_publications state2 host2 buffer e he)
  · intro hResolved
    obtain ⟨pairs, hforall, hall⟩ := measureAll_own state toBeCollected hResolved
    refine ⟨pairs, hforall, ?_, ?_⟩
    · show (collectMeasure state host toBeCollected).effects = _
      rw [collectMeasure_of_buffer state host toBeCollected _ _ hall]
    · show (collectMeasure state host toBeCollected).completion = _
      rw [collectMeasure_of_buffer state host toBeCollected _ _ hall]

/-- Witness of C19, as amended: the candidate B, which `startInitialCollection`
hands over for item A on the registry with the container `"undefined"` of type
`"board"`. -/
theorem collect_reads_before_writes_witness :
    (runCalls Scenario.registeredWithBoard initialHost
      [Call.onStateChange (Scenario.collectingFor Scenario.a)]).host.timeouts =
      [(1, Task.collect Scenario.candidates)] ∧
    (∀ descriptor ∈ Scenario.candidates,
      descriptor.kindTold = true ∧
        (ownMeasurement Scenario.registeredWithBoard descriptor).isSome = true) ∧
    ∃ pairs : List (Effect × UnknownDimensionType),
      List.Forall₂
        (fun descriptor pair =>
          ownMeasurement Scenario.registeredWithBoard descriptor = some pair)
        Scenario.candidates pairs ∧
      (runTask Scenario.registeredWithBoard initialHost (.measure Scenario.candidates)).effects =
        pairs.map Prod.fst ++
          [Effect.requestAnimationFrame initialHost.nextFrameId
            (.publish (pairs.map Prod.snd))] ∧
      (runTask Scenario.registeredWithBoard initialHost
        (.measure Scenario.candidates)).completion = .normal :=
  ⟨by decide, by decide,
    (collect_reads_before_writes Scenario.registeredWithBoard initialHost
      Scenario.candidates).2.2.2 (by decide)⟩

/-- Counterexample to C19 as stated, through the interface of the marshal: on
the registry with the container `"undefined"` of type `"board"`, the request to
collect for A publishes C1 and A and schedules the collection of the candidate
B; the timeout fires and requests the first frame; item B is unregistered; the
first frame then ends with an uncaught `TypeError`.  The candidate B is not
measured and the second frame is never requested. -/
theorem collect_candidate_not_measured :
    runCalls Scenario.registeredWithBoard initialHost
        [Call.onStateChange (Scenario.collectingFor Scenario.a), Call.fireTimeout 1,
          Call.unregisterDraggable "B", Call.fireFrame 1] =
      { state :=
          { Scenario.registeredWithBoard with
            draggables := [("A", Scenario.entryA), ("D", Scenario.entryD)]
            timers := { liftTimeoutId := none, collectionFrameId := some 1 } }
        host := { nextTimeoutId := 2, nextFrameId := 2, timeouts := [], frames := [] }
        effects :=
          Scenario.initialEffects ++
            [Effect.setTimeout 1 (.collect [.draggable Scenario.b]),
              Effect.requestAnimationFrame 1 (.measure [.draggable Scenario.b])]
        completion := .typeError } := by
  decide

/-- C20: the Phase 2 partition of `collect`.  For every buffer, Phase 2 calls
`publishDroppables` once with the buffered dimensions that carry no
`placeholder` and `publishDraggables` once with those that carry one, each in
buffer order; the two batches together have the size of the buffer; and the
only calls after them are `watchScroll` calls.  When every published container
has an entry in the registry under its descriptor's `id`, Phase 2 then calls
`watchScroll` once on that entry for each published container, in order,
completes normally, and ends by setting `timers.collectionFrameId` to `null`.
That condition holds of every buffer Phase 1 measures for candidates whose
`type` reads falsy, as all candidates of `startInitialCollection` are: such a
buffer holds no container dimension, and Phase 2 publishes the empty container
batch and the whole buffer as the item batch, calls no `watchScroll` and clears
the frame handle. -/
theorem collectPublish_partition (state : State) (host : Host)
    (buffer : List UnknownDimensionType) :
    (draggableDimensions buffer).map UnknownDimensionType.draggable =
      buffer.filter (fun d => d.placeholder) ∧
    (droppableDimensions buffer).map UnknownDimensionType.droppable =
      buffer.filter (fun d => !d.placeholder) ∧
    (draggableDimensions buffer).length + (droppableDimensions buffer).length =
      buffer.length ∧
    (∃ watches : List Effect,
      (runTask state host (.publish buffer)).effects =
        [Effect.publishDroppables (droppableDimensions buffer),
          Effect.publishDraggables (draggableDimensions buffer)] ++ watches ∧
      ∀ e ∈ watches, ∃ entry, e = Effect.watchScroll entry) ∧
    ((∀ dimension ∈ droppableDimensions buffer,
        (getEntry state.droppables dimension.descriptor.id).isSome = true) →
      ∃ entries : List DroppableEntry,
        List.Forall₂
          (fun dimension entry =>
            getEntry state.droppables dimension.descriptor.id = some entry)
          (droppableDimensions buffer) entries ∧
        runTask state host (.publish buffer) =
          { state := setFrameId state none, host := host
            effects :=
              [Effect.publishDroppables (droppableDimensions buffer),
                Effect.publishDraggables (draggableDimensions buffer)] ++
                entries.map Effect.watchScroll
            completion := .normal } ∧
        (setFrameId state none).timers.collectionFrameId = none) ∧
    (∀ (state1 : State) (toBeCollected : List UnknownDescriptorType) (reads : List Effect),
      (∀ candidate ∈ toBeCollected, candidate.typeTruthy = false) →
      measureAll state1 toBeCollected = (reads, some buffer) →
      runTask state host (.publish buffer) =
        { state := setFrameId state none, host := host
          effects :=
            [Effect.publishDroppables [],
              Effect.publishDraggables (draggableDimensions buffer)]
          completion := .normal }) := by
  have hgeneral : (∀ dimension ∈ droppableDimensions buffer,
        (getEntry state.droppables dimension.descriptor.id).isSome = true) →
      ∃ entries : List DroppableEntry,
        List.Forall₂
          (fun dimension entry =>
            getEntry state.droppables dimension.descriptor.id = some entry)
          (droppableDimensions buffer) entries ∧
        runTask state host (.publish buffer) =
          { state := setFrameId state none, host := host
            effects :=
              [Effect.publishDroppables (droppableDimensions buffer),
                Effect.publishDraggables (draggableDimensions buffer)] ++
                entries.map Effect.watchScroll
            completion := .normal } ∧
        (setFrameId state none).timers.collectionFrameId = none := by
    intro hEntries
    obtain ⟨entries, hforall, hall⟩ := watchAll_resolved state _ hEntries
    refine ⟨entries, hforall, ?_, rfl⟩
    show collectPublish state host buffer = _
    unfold collectPublish
    simp only [foldl_pushDimension, List.nil_append, hall]
  refine ⟨draggableDimensions_eq_filter buffer, droppableDimensions_eq_filter buffer,
    dimensions_length buffer, ?_, hgeneral, ?_⟩
  · exact ⟨_, collectPublish_effects state host buffer, watchAll_watches state _⟩
  · intro state1 toBeCollected reads hUntyped hMeasured
    have hnone := measureAll_untyped state1 toBeCollected hUntyped reads buffer hMeasured
    show collectPublish state host buffer = _
    unfold collectPublish
    simp only [foldl_pushDimension, List.nil_append, hnone, watchAll, List.append_nil]

/-- Witness of C20: the buffer Phase 1 measures for the candidate B, which
`startInitialCollection` hands over for item A on the registry with the
container `"undefined"` of type `"board"`. -/
theorem collectPublish_partition_witness :
    (∀ candidate ∈ Scenario.candidates, candidate.typeTruthy = false) ∧
    measureAll Scenario.registeredWithBoard Scenario.candidates =
      ([Effect.getDraggableDimension Scenario.entryB], some Scenario.buffer) ∧
    runTask Scenario.registeredWithBoard initialHost (.publish Scenario.buffer) =
      { state := setFrameId Scenario.registeredWithBoard none, host := initialHost
        effects :=
          [Effect.publishDroppables [],
            Effect.publishDraggables (draggableDimensions Scenario.buffer)]
        completion := .normal } :=
  ⟨by decide, by decide,
    (collectPublish_partition Scenario.registeredWithBoard initialHost
      Scenario.buffer).2.2.2.2.2 Scenario.registeredWithBoard Scenario.candidates
      [Effect.getDraggableDimension Scenario.entryB] (by decide) (by decide)⟩

end DimensionMarshal
